import Mathlib

/-!
Shallow embedding of the cpc-mvp WhatsApp webhook ingestion and
conversation-routing pipeline: the webhook route handler
(`src/app/api/payments/route.ts`, third document: `GET`/`POST` of the
webhook) and the library it imports (`src/unnamed/part_004`:
`verifySignature`, `extractMessage`, `WhatsAppAPI`, `Database`,
`RateLimiter`, `BotFlows`, `config`).

External primitives (HMAC-SHA256, JSON.parse, the network, the clock)
are parameters of the embedding, collected in `Ctx`.  Durable storage
(supabase tables) is modelled as lists of rows in `Store`.  Time is
epoch seconds (`Nat`).
-/

/-- JSON values, as produced by `JSON.parse`. -/
inductive JsonVal
  | null
  | bool (b : Bool)
  | num (n : Int)
  | str (s : String)
  | arr (elems : List JsonVal)
  | obj (fields : List (String × JsonVal))

/-- Property access `o[k]`: `none` models JS `undefined`. -/
def jGet : JsonVal → String → Option JsonVal
  | .obj fields, k => (fields.find? (fun f => f.1 == k)).map (fun f => f.2)
  | _, _ => none

/-- Array indexing `a?.[0]`. -/
def jIdx0 : JsonVal → Option JsonVal
  | .arr (x :: _) => some x
  | _ => none

/-- Coerce to a string; non-strings behave as absent for our purposes. -/
def jStr : JsonVal → Option String
  | .str s => some s
  | _ => none

/-- Coerce to an array of elements. -/
def jArr : JsonVal → Option (List JsonVal)
  | .arr xs => some xs
  | _ => none

-- Button ids (module-level constants in part_004)
def BTN_MENU : String := "BTN_MENU"
def BTN_ORDER : String := "BTN_ORDER"
def BTN_MORE : String := "BTN_MORE"
def BTN_BACK_HOME : String := "BTN_BACK_HOME"
def BTN_CONTACT : String := "BTN_CONTACT"
def BTN_HISTORY : String := "BTN_HISTORY"
def BTN_DEMO : String := "BTN_DEMO"
def BTN_FAQ : String := "BTN_FAQ"
def BTN_CATALOGUE : String := "BTN_CATALOGUE"
def BTN_BOOKING : String := "BTN_BOOKING"
def BTN_LEAD : String := "BTN_LEAD"

-- Item ids
def ITEM_ZINGER : String := "ITEM_ZINGER"
def ITEM_PIZZA : String := "ITEM_PIZZA"
def ITEM_FRIES : String := "ITEM_FRIES"

/-- JS `String.prototype.toLowerCase` (ASCII-relevant part), modelled
character-wise. -/
def jsToLower (s : String) : String :=
  ⟨s.data.map Char.toLower⟩

/-- JS `String.prototype.trim`: strip whitespace from both ends. -/
def jsTrim (s : String) : String :=
  ⟨((s.data.dropWhile Char.isWhitespace).reverse.dropWhile
      Char.isWhitespace).reverse⟩

/-- `signature.startsWith('sha256=') ? signature.slice(7) : signature`. -/
def stripSigScheme (signature : String) : String :=
  if signature.data.take 7 = ("sha256=").data then ⟨signature.data.drop 7⟩
  else signature

/-- `crypto.timingSafeEqual(Buffer.from(a), Buffer.from(b))`: throws
(`Except.error`) when the UTF-8 byte lengths differ, otherwise compares
the bytes (for equal-length UTF-8 encodings, byte equality coincides
with string equality). -/
def timingSafeEq (a b : String) : Except Unit Bool :=
  if a.utf8ByteSize ≠ b.utf8ByteSize then .error ()
  else .ok (a == b)

/-- `verifySignature(payload, signature)` from part_004.  `hmac key msg`
is the hex digest of HMAC-SHA256 (node `crypto`, external); its output
is always 64 hex characters.  An `Except.error` is an uncaught throw
from `crypto.timingSafeEqual`. -/
def verifySignature (hmac : String → String → String) (appSecret : String)
    (payload signature : String) : Except Unit Bool :=
  if appSecret == "" then .ok true
  else
    let expected := hmac appSecret payload
    timingSafeEq expected (stripSigScheme signature)

/-- Normalized inbound message, the record built by `extractMessage`. -/
structure Msg where
  from_ : Option String
  id : Option String
  type : Option String
  kind : String
  text : Option String := none
  reply_id : Option String := none
  title : Option String := none
deriving DecidableEq

/-- Navigation `data.entry?.[0]?.changes?.[0]?.value?.messages` of
`extractMessage`, yielding the messages array when present. -/
def messagesOf (data : JsonVal) : Option (List JsonVal) :=
  (((((jGet data ("entry")).bind jIdx0).bind
      (fun e => jGet e ("changes"))).bind jIdx0).bind
      (fun c => jGet c ("value"))).bind
      (fun v => (jGet v ("messages")).bind jArr)

/-- `extractMessage(data)` from part_004.  Returns `none` both for the
explicit `return null` paths and for thrown-and-caught property accesses
on `undefined`/`null` (the `catch` clause). -/
def extractMessage (data : JsonVal) : Option Msg :=
  match messagesOf data with
  | none => none
  | some [] => none
  | some (msg :: _) =>
    let from_ := (jGet msg ("from")).bind jStr
    let msgId := (jGet msg ("id")).bind jStr
    let msgType := (jGet msg ("type")).bind jStr
    if msgType == some ("interactive") then
      let iOpt := jGet msg ("interactive")
      let itype := (iOpt.bind (fun i => jGet i ("type"))).bind jStr
      if itype == some ("button_reply") then
        match iOpt.bind (fun i => jGet i ("button_reply")) with
        | none => none
        | some .null => none
        | some br =>
          some { from_ := from_, id := msgId, type := msgType, kind := "button",
                 reply_id := (jGet br ("id")).bind jStr,
                 title := (jGet br ("title")).bind jStr }
      else if itype == some ("list_reply") then
        match iOpt.bind (fun i => jGet i ("list_reply")) with
        | none => none
        | some .null => none
        | some lr =>
          some { from_ := from_, id := msgId, type := msgType, kind := "list",
                 reply_id := (jGet lr ("id")).bind jStr,
                 title := (jGet lr ("title")).bind jStr }
      else
        some { from_ := from_, id := msgId, type := msgType,
               kind := "interactive_other" }
    else if msgType == some ("text") then
      some { from_ := from_, id := msgId, type := msgType, kind := "text",
             text := some ((((jGet msg ("text")).bind
               (fun t => jGet t ("body"))).bind jStr).getD ("")) }
    else
      some { from_ := from_, id := msgId, type := msgType, kind := "other" }

/-- `RateLimiter.checkRateLimit` window key: `new Date()` with
`setSeconds(0, 0)` — the start of the current minute, in epoch
seconds. -/
def windowKey (now : Nat) : Nat :=
  now / 60 * 60

/-- One row of the `rate_limits` table. -/
structure RateRow where
  wa_id : String
  window_start : Nat
  request_count : Nat
deriving DecidableEq

/-- The `rate_limits` row selector: `.eq('wa_id', waId)
.eq('window_start', windowStartStr)`. -/
def rlKey (waId : String) (now : Nat) (r : RateRow) : Bool :=
  r.wa_id == waId && r.window_start == windowKey now

/-- `RateLimiter.checkRateLimit(waId)` from part_004, with the store
passed explicitly.  `maxReq` is `config.rateLimitRequests`.  Returns
`((allowed, remaining), rows)`. -/
def checkRateLimit (maxReq : Nat) (waId : String) (now : Nat)
    (rows : List RateRow) : (Bool × Int) × List RateRow :=
  let ws := windowKey now
  match rows.find? (rlKey waId now) with
  | some r =>
    if r.request_count ≥ maxReq then ((false, 0), rows)
    else
      ((true, (maxReq : Int) - (r.request_count : Int) - 1),
       rows.map (fun q =>
         if rlKey waId now q then { q with request_count := q.request_count + 1 }
         else q))
  | none =>
    ((true, (maxReq : Int) - 1),
     rows ++ [{ wa_id := waId, window_start := ws, request_count := 1 }])

/-- The flow handlers of `BotFlows` reachable from the dispatcher. -/
inductive BotFlow
  | home
  | faq
  | catalogue
  | booking
  | leadCapture
  | more
  | history
deriving DecidableEq

/-- The text-dispatch ladder of the `POST` handler (route.ts): lowercase
and trim, then match fixed vocabulary sets; unmatched text defaults to
the Home flow. -/
def routeText (text : String) : BotFlow :=
  let t := jsToLower (jsTrim text)
  if ["hi", "hello", "start", "hey", "hola", "menu"].contains t then .home
  else if t == ("faq") || t == ("help") then .faq
  else if ["catalogue", "catalog", "products", "order"].contains t then .catalogue
  else if ["book", "booking", "appointment"].contains t then .booking
  else if ["lead", "contact", "interest", "demo"].contains t then .leadCapture
  else if t == ("more") then .more
  else if ["history", "orders"].contains t then .history
  else .home

/-- Stable insertion used to model the store's ordered query
(`.order(...)`). -/
def insertSorted (le : α → α → Bool) (x : α) : List α → List α
  | [] => [x]
  | y :: ys => if le x y then x :: y :: ys else y :: insertSorted le x ys

/-- Stable sort by `le`, modelling the store's ordered query. -/
def sortRows (le : α → α → Bool) (xs : List α) : List α :=
  xs.foldr (insertSorted le) []

/-- One row of the `users` table. -/
structure UserRec where
  wa_id : String
  phone : String
  first_seen_at : Nat
  last_active_at : Nat
  is_blocked : Bool
deriving DecidableEq

/-- One row of the `processed_messages` table. -/
structure ProcRec where
  message_id : String
  wa_id : String
  message_type : String
  processed_at : Nat
deriving DecidableEq

/-- One row of the `orders` table (store-generated surrogate ids
omitted; `order_number` is store-generated, absent on insert). -/
structure OrderRec where
  order_number : Option String
  wa_id : String
  customer_phone : String
  item_id : String
  item_name : String
  item_price : Option Nat
  status : String
  created_at : Nat
deriving DecidableEq

/-- One row of the `menu_items` table. -/
structure MenuItemRec where
  item_id : String
  name : String
  description : Option String
  price : Nat
  is_available : Bool
  sort_order : Nat
deriving DecidableEq

/-- One row of the `leads` table. -/
structure LeadRec where
  wa_id : String
  phone : String
  name : Option String
  source : String
  captured_at : Nat
  status : String
  last_interaction : Option Nat
deriving DecidableEq

/-- One row of the `message_logs` table (the JSON `content` blob is not
modelled; claims only count rows and read `direction`). -/
structure LogRec where
  wa_id : String
  direction : String
  message_type : String
  status : String
  created_at : Nat
deriving DecidableEq

/-- The durable state: the supabase tables touched by the pipeline. -/
structure Store where
  users : List UserRec
  processed : List ProcRec
  orders : List OrderRec
  menuItems : List MenuItemRec
  leads : List LeadRec
  rateLimits : List RateRow
  messageLogs : List LogRec
deriving DecidableEq

/-- `Database.alreadyProcessed(messageId)`: existence query on the
unique-keyed `processed_messages` table. -/
def alreadyProcessed (st : Store) (messageId : String) : Bool :=
  (st.processed.filter (fun r => r.message_id == messageId)).length > 0

/-- `Database.markProcessed(messageId, waId, messageType)`: insert. -/
def markProcessed (st : Store) (messageId waId messageType : String)
    (now : Nat) : Store :=
  { st with processed := st.processed ++
      [{ message_id := messageId, wa_id := waId,
         message_type := messageType, processed_at := now }] }

/-- `Database.isUserBlocked(waId)`: `data?.is_blocked || false`. -/
def isUserBlocked (st : Store) (waId : String) : Bool :=
  ((st.users.find? (fun u => u.wa_id == waId)).map
    (fun u => u.is_blocked)).getD false

/-- `Database.getOrCreateUser(waId, phone)`: update `last_active_at` on
an existing row, otherwise insert a fresh user row. -/
def getOrCreateUser (st : Store) (waId phone : String) (now : Nat) : Store :=
  match st.users.find? (fun u => u.wa_id == waId) with
  | some _ =>
    { st with users := st.users.map (fun u =>
        if u.wa_id == waId then { u with last_active_at := now } else u) }
  | none =>
    { st with users := st.users ++
        [{ wa_id := waId, phone := phone, first_seen_at := now,
           last_active_at := now, is_blocked := false }] }

/-- `Database.createOrder(waId, customerPhone, itemId, itemName,
itemPrice)`: append-only insert with status `placed`. -/
def createOrder (st : Store) (waId customerPhone itemId itemName : String)
    (itemPrice : Option Nat) (now : Nat) : Store :=
  { st with orders := st.orders ++
      [{ order_number := none, wa_id := waId, customer_phone := customerPhone,
         item_id := itemId, item_name := itemName, item_price := itemPrice,
         status := ("placed"), created_at := now }] }

/-- `Database.getOrderHistory(waId, limit)`: the sender's orders,
newest first, capped at `limit`. -/
def getOrderHistory (st : Store) (waId : String) (limit : Nat) :
    List OrderRec :=
  (sortRows (fun a b => b.created_at ≤ a.created_at)
    (st.orders.filter (fun o => o.wa_id == waId))).take limit

/-- `Database.getMenuItems()`: available items ordered by
`sort_order`. -/
def getMenuItems (st : Store) : List MenuItemRec :=
  sortRows (fun a b => a.sort_order ≤ b.sort_order)
    (st.menuItems.filter (fun i => i.is_available))

/-- `Database.captureLead(waId, phone, name, source)`: upsert keyed by
`wa_id` — update `last_interaction` (and `name` when truthy) on an
existing lead, otherwise insert a fresh lead with status `new`. -/
def captureLead (st : Store) (waId phone : String) (name : Option String)
    (source : String) (now : Nat) : Store :=
  match st.leads.find? (fun l => l.wa_id == waId) with
  | some _ =>
    { st with leads := st.leads.map (fun l =>
        if l.wa_id == waId then
          { l with last_interaction := some now,
                   name := match name with
                     | some n => if n.isEmpty then l.name else some n
                     | none => l.name }
        else l) }
  | none =>
    { st with leads := st.leads ++
        [{ wa_id := waId, phone := phone, name := name, source := source,
           captured_at := now, status := ("new"), last_interaction := none }] }

/-- A list-message section: `{ title, rows: [{id, title, description}] }`. -/
structure ListSection where
  title : String
  rows : List (String × String × Option String)
deriving DecidableEq

/-- The three outbound payload shapes posted to the provider's messages
endpoint by `WhatsAppAPI`. -/
inductive SendPayload
  | text (dst body : String)
  | buttons (dst body : String) (buttons : List (String × String))
  | list (dst body buttonText : String) (sections : List ListSection)
deriving DecidableEq

/-- The configuration and external primitives the pipeline reads:
`config` from part_004 plus the HMAC, JSON parser, network and clock.
`windowSeconds` is `config.rateLimitWindowSeconds`; `maxReq` is
`config.rateLimitRequests`; `net p` tells whether the provider answers
a 2xx to payload `p`; `accessToken` tells whether
`WHATSAPP_ACCESS_TOKEN` is set. -/
structure Ctx where
  hmac : String → String → String
  appSecret : String
  accessToken : Bool
  maxReq : Nat
  windowSeconds : Nat
  now : Nat
  net : SendPayload → Bool
  parse : String → Option JsonVal

/-- In-flight request state: the durable store plus the outbound
payloads posted so far.  `Except.error` carries the state at the point
an exception was raised. -/
abbrev St := Store × List SendPayload

/-- `WhatsAppAPI.logMessage(waId, direction, messageType, content)`:
append-only audit insert (its own failures are swallowed). -/
def logMessage (st : Store) (waId direction messageType : String)
    (now : Nat) : Store :=
  { st with messageLogs := st.messageLogs ++
      [{ wa_id := waId, direction := direction,
         message_type := messageType, status := ("success"),
         created_at := now }] }

/-- `WhatsAppAPI.send(payload)`: throws when no access token is
configured; otherwise posts to the provider and throws on non-2xx. -/
def apiSend (ctx : Ctx) (p : SendPayload) (s : St) : Except St St :=
  if !ctx.accessToken then .error s
  else
    let s1 : St := (s.1, s.2 ++ [p])
    if ctx.net p then .ok s1 else .error s1

/-- `WhatsAppAPI.sendText(to, text)`: send, then log outbound. -/
def sendText (ctx : Ctx) (dst body : String) (s : St) : Except St St := do
  let s1 ← apiSend ctx (.text dst body) s
  .ok (logMessage s1.1 dst ("outbound") ("text") ctx.now, s1.2)

/-- The interactive-buttons payload `WhatsAppAPI.sendButtons` builds:
`buttons.slice(0, 3)`, each mapped to a reply `{id, title}`. -/
def buttonsPayload (dst bodyText : String)
    (buttons : List (String × String)) : SendPayload :=
  .buttons dst bodyText ((buttons.take 3).map (fun b => (b.1, b.2)))

/-- `WhatsAppAPI.sendButtons(to, bodyText, buttons)`: send, then log
outbound. -/
def sendButtons (ctx : Ctx) (dst bodyText : String)
    (buttons : List (String × String)) (s : St) : Except St St := do
  let s1 ← apiSend ctx (buttonsPayload dst bodyText buttons) s
  .ok (logMessage s1.1 dst ("outbound") ("buttons") ctx.now, s1.2)

/-- `WhatsAppAPI.sendList(to, bodyText, buttonText, sections)`: send,
then log outbound. -/
def sendList (ctx : Ctx) (dst bodyText buttonText : String)
    (sections : List ListSection) (s : St) : Except St St := do
  let s1 ← apiSend ctx (.list dst bodyText buttonText sections) s
  .ok (logMessage s1.1 dst ("outbound") ("list") ctx.now, s1.2)

/-- `BotFlows.showHome(to)`. -/
def showHome (ctx : Ctx) (dst : String) (s : St) : Except St St :=
  sendButtons ctx dst
    ("👋 Welcome to CPC Demo Bot!\n\nExperience our WhatsApp automation features:")
    [(BTN_FAQ, "❓ FAQ Demo"), (BTN_CATALOGUE, "📦 Catalogue"),
     (BTN_MORE, "⚙️ More Options")] s

/-- `BotFlows.showFAQ(to)` (static FAQ text abbreviated to its opening
line; the claims never read reply bodies). -/
def showFAQ (ctx : Ctx) (dst : String) (s : St) : Except St St := do
  let s1 ← sendText ctx dst ("❓ *Frequently Asked Questions*") s
  sendButtons ctx dst ("Want to see more features?")
    [(BTN_CATALOGUE, "📦 View Catalogue"), (BTN_LEAD, "📝 Get Started"),
     (BTN_BACK_HOME, "🔙 Back")] s1

/-- `BotFlows.showCatalogue(to)`: live menu items as one list section,
falling back to the built-in demo items when the store has none. -/
def showCatalogue (ctx : Ctx) (dst : String) (s : St) : Except St St :=
  let items := getMenuItems s.1
  if items.length > 0 then
    sendList ctx dst
      ("📦 *Product Catalogue Demo*\n\nBrowse our sample products:")
      ("View Products")
      [{ title := ("Available Items"),
         rows := items.map (fun i =>
           (i.item_id, i.name, some (("Rs ") ++ toString (i.price / 100)))) }] s
  else
    sendList ctx dst
      ("📦 *Product Catalogue Demo*\n\nBrowse our sample products:")
      ("View Products")
      [{ title := ("Sample Products"),
         rows := [(ITEM_ZINGER, ("Zinger Burger"), some ("Rs 450")),
                  (ITEM_PIZZA, ("Pizza Slice"), some ("Rs 350")),
                  (ITEM_FRIES, ("Fries"), some ("Rs 200"))] }] s

/-- `BotFlows.showBooking(to)` (static text abbreviated). -/
def showBooking (ctx : Ctx) (dst : String) (s : St) : Except St St := do
  let s1 ← sendText ctx dst ("📅 *Appointment Booking Demo*") s
  sendButtons ctx dst ("Would you like to explore other features?")
    [(BTN_LEAD, "📝 Get Started"), (BTN_FAQ, "❓ FAQ Demo"),
     (BTN_BACK_HOME, "🔙 Back")] s1

/-- `BotFlows.showLeadCapture(to, waId)`: capture the lead (source
`whatsapp_demo`), confirm by text, then Home. -/
def showLeadCapture (ctx : Ctx) (dst waId : String) (s : St) :
    Except St St := do
  let s0 : St := (captureLead s.1 waId dst none ("whatsapp_demo") ctx.now, s.2)
  let s1 ← sendText ctx dst ("📝 *Lead Captured!*") s0
  showHome ctx dst s1

/-- `BotFlows.showMore(to)`. -/
def showMore (ctx : Ctx) (dst : String) (s : St) : Except St St :=
  sendButtons ctx dst ("⚙️ *More Options*\n\nExplore additional features:")
    [(BTN_BOOKING, "📅 Booking Demo"), (BTN_HISTORY, "📜 Order History"),
     (BTN_BACK_HOME, "🔙 Back")] s

/-- Status emoji table of `BotFlows.showHistory`. -/
def statusEmoji (status : String) : String :=
  if status == ("placed") then ("🆕")
  else if status == ("confirmed") then ("✅")
  else if status == ("preparing") then ("👨‍🍳")
  else if status == ("ready") then ("📦")
  else if status == ("delivered") then ("✔️")
  else if status == ("cancelled") then ("❌")
  else ("❓")

/-- `BotFlows.showHistory(to, waId)`: last five orders, newest first,
or a no-orders notice; both end at Home. -/
def showHistory (ctx : Ctx) (dst waId : String) (s : St) : Except St St := do
  let orders := getOrderHistory s.1 waId 5
  if orders.length == 0 then do
    let s1 ← sendText ctx dst
      ("📜 *Order History*\n\nNo orders yet! Try ordering from our catalogue demo.") s
    showHome ctx dst s1
  else do
    let lines := [("📜 *Your Recent Orders*\n")] ++ orders.map (fun o =>
      statusEmoji o.status ++ (" #") ++ (match o.order_number with
        | some n => if n.isEmpty then ("N/A") else n
        | none => ("N/A")) ++ (" ") ++ o.item_name ++ (" — ") ++ o.status)
    let s1 ← sendText ctx dst (String.intercalate ("\n") lines) s
    showHome ctx dst s1

/-- `BotFlows.showRateLimited(to)`. -/
def showRateLimited (ctx : Ctx) (dst : String) (s : St) : Except St St :=
  sendText ctx dst
    ("⏳ You’re sending messages too quickly. Please wait a moment and try again.") s

/-- The item map of `BotFlows.handleOrder`: live catalogue entries, or
the built-in demo items when the catalogue is empty. -/
def effectiveItems (st : Store) : List (String × String × Nat) :=
  let items := getMenuItems st
  if items.length == 0 then
    [(ITEM_ZINGER, ("Zinger Burger"), 45000),
     (ITEM_PIZZA, ("Pizza Slice"), 35000),
     (ITEM_FRIES, ("Fries"), 20000)]
  else items.map (fun i => (i.item_id, i.name, i.price))

/-- The lookup `itemMap[itemId]` of `BotFlows.handleOrder` (an absent
`reply_id` matches nothing). -/
def itemLookup (st : Store) (itemId : Option String) :
    Option (String × String × Nat) :=
  itemId.bind (fun i => (effectiveItems st).find? (fun e => e.1 == i))

/-- `BotFlows.handleOrder(to, waId, itemId, itemTitle)`: resolve the
picked id; on a hit persist an order and confirm then Home, on a miss
send a not-recognized notice then re-show the catalogue. -/
def handleOrder (ctx : Ctx) (dst waId : String) (itemId : Option String)
    (s : St) : Except St St :=
  match itemLookup s.1 itemId with
  | some e => do
    let itemDisplay := e.2.1 ++ (" — Rs ") ++ toString (e.2.2 / 100)
    let s0 : St := (createOrder s.1 waId dst (itemId.getD ("")) itemDisplay
      (some e.2.2) ctx.now, s.2)
    let s1 ← sendText ctx dst
      (("✅ *Order Placed!*\n\nItem: *") ++ itemDisplay ++ ("*")) s0
    showHome ctx dst s1
  | none => do
    let s1 ← sendText ctx dst ("❓ Item not recognized. Please try again.") s
    showCatalogue ctx dst s1

/-- Run one named flow handler (the dispatch targets of the `POST`
handler). -/
def runFlow (ctx : Ctx) (dst waId : String) : BotFlow → St → Except St St
  | .home => showHome ctx dst
  | .faq => showFAQ ctx dst
  | .catalogue => showCatalogue ctx dst
  | .booking => showBooking ctx dst
  | .leadCapture => showLeadCapture ctx dst waId
  | .more => showMore ctx dst
  | .history => showHistory ctx dst waId

/-- The button-id handler map of the `POST` handler; unmapped ids fall
back to Home. -/
def buttonFlow (rid : String) : BotFlow :=
  if rid == BTN_MENU then .home
  else if rid == BTN_ORDER then .catalogue
  else if rid == BTN_MORE then .more
  else if rid == BTN_HISTORY then .history
  else if rid == BTN_CONTACT then .leadCapture
  else if rid == BTN_BACK_HOME then .home
  else if rid == BTN_FAQ then .faq
  else if rid == BTN_CATALOGUE then .catalogue
  else if rid == BTN_BOOKING then .booking
  else if rid == BTN_LEAD then .leadCapture
  else .home

/-- Pipeline-level events, in the order the `POST` handler performs
them, for stating temporal claims. -/
inductive Event
  | checkDedup
  | markProc
  | checkBlocked
  | checkRate
  | upsertUser
  | dispatched
deriving DecidableEq

/-- The HTTP response of the `POST` handler (body `status` field and
HTTP status code) plus the final durable store, the outbound payloads
posted, and the event trace. -/
structure PostOut where
  status : String
  http : Nat
  store : Store
  sends : List SendPayload
  trace : List Event
deriving DecidableEq

/-- Map a flow result to the response: a completed flow answers the
given status with HTTP 200; an uncaught exception reaches the top-level
`catch`, which answers status `error`, still HTTP 200. -/
def finish (status : String) (tr : List Event) (r : Except St St) : PostOut :=
  match r with
  | .ok (st, sends) =>
    { status := status, http := 200, store := st, sends := sends, trace := tr }
  | .error (st, sends) =>
    { status := ("error"), http := 200, store := st, sends := sends, trace := tr }

/-- The kind dispatch of the `POST` handler: text vocabulary routing,
button-id routing, list selections to `handleOrder`, and the fallback
reply for any other kind. -/
def dispatchMsg (ctx : Ctx) (m : Msg) (dst waId : String) (s : St) :
    Except St St :=
  if m.kind == ("text") then
    runFlow ctx dst waId (routeText ((m.text).getD (""))) s
  else if m.kind == ("button") then
    runFlow ctx dst waId (buttonFlow ((m.reply_id).getD (""))) s
  else if m.kind == ("list") then
    handleOrder ctx dst waId m.reply_id s
  else do
    let s1 ← sendText ctx dst
      ("I can only process text messages and button selections right now. Please use the menu options below! 👇") s
    showHome ctx dst s1

/-- The `POST` handler from the inbound log onwards: dedup check, mark,
blocked check, rate limit, user upsert, dispatch. -/
def processMsg (ctx : Ctx) (m : Msg) (st0 : Store) : PostOut :=
  let waId := (m.from_).getD ("")
  let msgId := (m.id).getD ("")
  let st1 := logMessage st0 waId ("inbound")
    (if m.kind.isEmpty then ("unknown") else m.kind) ctx.now
  if alreadyProcessed st1 msgId then
    { status := ("duplicate"), http := 200, store := st1, sends := [],
      trace := [.checkDedup] }
  else
    let st2 := markProcessed st1 msgId waId m.kind ctx.now
    if isUserBlocked st2 waId then
      { status := ("blocked"), http := 200, store := st2, sends := [],
        trace := [.checkDedup, .markProc, .checkBlocked] }
    else
      let rl := checkRateLimit ctx.maxReq waId ctx.now st2.rateLimits
      let st3 := { st2 with rateLimits := rl.2 }
      if !rl.1.1 then
        finish ("rate_limited") [.checkDedup, .markProc, .checkBlocked, .checkRate]
          (showRateLimited ctx waId (st3, []))
      else
        let st4 := getOrCreateUser st3 waId waId ctx.now
        finish ("ok")
          [.checkDedup, .markProc, .checkBlocked, .checkRate, .upsertUser,
           .dispatched]
          (dispatchMsg ctx m waId waId (st4, []))

/-- The `POST` handler after signature verification: JSON parse (an
unparseable body answers `invalid_json`, HTTP 400), extraction (a
missing message or missing id/from answers `ignored`, HTTP 200), then
`processMsg`. -/
def handleParsed (ctx : Ctx) (body : String) (st0 : Store) : PostOut :=
  match ctx.parse body with
  | none =>
    { status := ("invalid_json"), http := 400, store := st0, sends := [],
      trace := [] }
  | some data =>
    match extractMessage data with
    | none =>
      { status := ("ignored"), http := 200, store := st0, sends := [],
        trace := [] }
    | some m =>
      if ((m.id).getD ("")).isEmpty || ((m.from_).getD ("")).isEmpty then
        { status := ("ignored"), http := 200, store := st0, sends := [],
          trace := [] }
      else processMsg ctx m st0

/-- The full `POST` handler of the webhook route.  When an app secret is
configured, a thrown `verifySignature` reaches the top-level `catch`
(status `error`, HTTP 200) and a `false` answer yields
`invalid_signature` with HTTP 401; with no app secret configured the
check is skipped. -/
def handlePost (ctx : Ctx) (body signature : String) (st0 : Store) :
    PostOut :=
  if ctx.appSecret == ("") then handleParsed ctx body st0
  else
    match verifySignature ctx.hmac ctx.appSecret body signature with
    | .error _ =>
      { status := ("error"), http := 200, store := st0, sends := [],
        trace := [] }
    | .ok false =>
      { status := ("invalid_signature"), http := 401, store := st0,
        sends := [], trace := [] }
    | .ok true => handleParsed ctx body st0

/-- The state a flow ends in, whether it completed or threw. -/
def stOf : Except St St → St
  | .ok s => s
  | .error s => s

/-- Modelled from the spec: the window key the specification describes,
`floor(now, windowLength)` for the configured window length
(`rateLimitWindowSeconds`), to be compared with the code's
`windowKey`. -/
def specWindowKey (windowLen now : Nat) : Nat :=
  now / windowLen * windowLen

/-- The vocabulary matched by the text-dispatch ladder (everything not
in this list falls through to the default branch). -/
def routeVocab : List String :=
  ["hi", "hello", "start", "hey", "hola", "menu", "faq", "help",
   "catalogue", "catalog", "products", "order", "book", "booking",
   "appointment", "lead", "contact", "interest", "demo", "more",
   "history", "orders"]

/-- A message whose dispatch reaches `BotFlows.showLeadCapture`: lead
vocabulary text, or the `BTN_CONTACT`/`BTN_LEAD` button ids. -/
def leadTrigger (m : Msg) : Bool :=
  (m.kind == ("text") && routeText ((m.text).getD ("")) == BotFlow.leadCapture) ||
  (m.kind == ("button") && buttonFlow ((m.reply_id).getD ("")) == BotFlow.leadCapture)

-- Concrete fixtures used by witnesses and counterexamples.

/-- A 64-character hex digest, the length HMAC-SHA256 always emits. -/
def hex64 : String :=
  String.mk (List.replicate 64 'a')

/-- A 100-character button title. -/
def title100 : String :=
  String.mk (List.replicate 100 'x')

/-- The store with every table empty. -/
def emptyStore : Store :=
  ⟨[], [], [], [], [], [], []⟩

/-- A provider envelope carrying one text message. -/
def textPayload (t : String) : JsonVal :=
  .obj [("entry", .arr [.obj [("changes", .arr [.obj [("value", .obj
    [("messages", .arr [.obj [("from", .str ("923001234567")),
      ("id", .str ("wamid.test1")), ("type", .str ("text")),
      ("text", .obj [("body", .str t)])]])])]])]])]

/-- A provider envelope carrying one list selection of `ITEM_PIZZA`. -/
def listPayloadPizza : JsonVal :=
  .obj [("entry", .arr [.obj [("changes", .arr [.obj [("value", .obj
    [("messages", .arr [.obj [("from", .str ("923001234567")),
      ("id", .str ("wamid.list1")), ("type", .str ("interactive")),
      ("interactive", .obj [("type", .str ("list_reply")),
        ("list_reply", .obj [("id", .str ("ITEM_PIZZA")),
          ("title", .str ("Pizza Slice"))])])]])])]])]])]

/-- A provider envelope carrying one `BTN_CONTACT` button tap. -/
def btnContactPayload : JsonVal :=
  .obj [("entry", .arr [.obj [("changes", .arr [.obj [("value", .obj
    [("messages", .arr [.obj [("from", .str ("923001234567")),
      ("id", .str ("wamid.btn1")), ("type", .str ("interactive")),
      ("interactive", .obj [("type", .str ("button_reply")),
        ("button_reply", .obj [("id", .str ("BTN_CONTACT")),
          ("title", .str ("Contact"))])])]])])]])]])]

/-- A delivery-status callback: a `value` with `statuses` but no
`messages` array. -/
def statusCallbackPayload : JsonVal :=
  .obj [("entry", .arr [.obj [("changes", .arr [.obj [("value", .obj
    [("statuses", .arr [.obj [("id", .str ("wamid.x"))]])])]])]])]

/-- A baseline context: no app secret, token configured, provider
answering 2xx, default limits, fixed clock, unparseable body. -/
def ctxBase : Ctx :=
  { hmac := fun _ _ => hex64, appSecret := "", accessToken := true,
    maxReq := 30, windowSeconds := 60, now := 1000,
    net := fun _ => true, parse := fun _ => none }

/-- The envelope carries no (non-empty) `messages` array — the shape of
delivery-status callbacks and other non-message webhook events. -/
def noMessages (data : JsonVal) : Bool :=
  match messagesOf data with
  | none => true
  | some [] => true
  | some (_ :: _) => false

/-- Decidable equality of flow results, for evaluating the embedding
on concrete inputs. -/
instance {ε α : Type} [DecidableEq ε] [DecidableEq α] :
    DecidableEq (Except ε α) := fun x y =>
  match x, y with
  | .ok a, .ok b =>
    if h : a = b then .isTrue (by rw [h])
    else .isFalse (fun hc => h (Except.ok.inj hc))
  | .error a, .error b =>
    if h : a = b then .isTrue (by rw [h])
    else .isFalse (fun hc => h (Except.error.inj hc))
  | .ok _, .error _ => .isFalse (fun hc => Except.noConfusion hc)
  | .error _, .ok _ => .isFalse (fun hc => Except.noConfusion hc)

/-- `n` sequential `checkRateLimit` calls for one sender at one
instant, starting from an empty `rate_limits` table. -/
def iterCalls (maxReq : Nat) (waId : String) (now : Nat) : Nat → List RateRow
  | 0 => []
  | n + 1 => (checkRateLimit maxReq waId now (iterCalls maxReq waId now n)).2

-- ======================================================================
-- Theorems
-- ======================================================================

/-- C6: the router lowercase-trims inbound text and dispatches on a
fixed vocabulary: the greeting words go to Home, `faq`/`help` to FAQ,
the catalogue words to Catalogue, the booking words to Booking, the
lead words to LeadCapture, `more` to More, the history words to
History, and every string whose normalization is outside the vocabulary
(such as `asdf123`) goes to Home, never to an error. -/
theorem routeText_vocabulary :
    (routeText ("hi") = .home ∧ routeText ("hello") = .home ∧
     routeText ("menu") = .home ∧ routeText ("start") = .home ∧
     routeText ("hey") = .home ∧ routeText ("hola") = .home) ∧
    (routeText ("faq") = .faq ∧ routeText ("help") = .faq) ∧
    (routeText ("catalogue") = .catalogue ∧ routeText ("catalog") = .catalogue ∧
     routeText ("products") = .catalogue ∧ routeText ("order") = .catalogue) ∧
    (routeText ("book") = .booking ∧ routeText ("booking") = .booking ∧
     routeText ("appointment") = .booking) ∧
    (routeText ("lead") = .leadCapture ∧ routeText ("contact") = .leadCapture ∧
     routeText ("interest") = .leadCapture ∧ routeText ("demo") = .leadCapture) ∧
    routeText ("more") = .more ∧
    (routeText ("history") = .history ∧ routeText ("orders") = .history) ∧
    routeText ("asdf123") = .home ∧
    (∀ s : String, jsToLower (jsTrim s) ∉ routeVocab → routeText s = .home) := by
  refine ⟨by decide, by decide, by decide, by decide, by decide, by decide,
    by decide, by decide, ?_⟩
  intro s hs
  simp only [routeVocab, List.mem_cons, List.not_mem_nil, or_false,
    not_or] at hs
  obtain ⟨h1, h2, h3, h4, h5, h6, h7, h8, h9, h10, h11, h12, h13, h14,
    h15, h16, h17, h18, h19, h20, h21, h22⟩ := hs
  simp [routeText, List.elem_eq_mem, List.mem_cons, h1, h2, h3, h4,
    h5, h6, h7, h8, h9, h10, h11, h12, h13, h14, h15, h16, h17, h18,
    h19, h20, h21, h22]

/-- C6 witness: a concrete out-of-vocabulary string routes to Home. -/
theorem routeText_vocabulary_witness :
    jsToLower (jsTrim ("zzz!")) ∉ routeVocab ∧ routeText ("zzz!") = .home :=
  ⟨by decide, routeText_vocabulary.2.2.2.2.2.2.2.2 ("zzz!") (by decide)⟩

/-- C4 counterexample: with a configured window length of 120 seconds,
the code's window key at `now = 90` is the minute start 60, not
`floor(90, 120) = 0`; two requests at 0 and 90 share the spec's
120-second window yet land in two distinct counter rows. -/
theorem windowKey_ignores_config_counterexample :
    windowKey 90 ≠ specWindowKey 120 90 ∧
    specWindowKey 120 0 = specWindowKey 120 90 ∧
    (checkRateLimit 30 ("92300") 90
      (checkRateLimit 30 ("92300") 0 []).2).2.length = 2 := by
  decide

/-- C4 amended: the rate limiter's window key is always the start of
the current minute — `floor(now, 60)` — independent of the configured
`rateLimitWindowSeconds`; two sequential requests of one sender share a
counter row exactly when their minutes coincide, and the key coincides
with the spec's `floor(now, windowLength)` only for a 60-second
window. -/
theorem windowKey_fixed_minute (maxReq : Nat) (waId : String)
    (n1 n2 : Nat) (hmax : 2 ≤ maxReq) :
    (∀ n : Nat, windowKey n = specWindowKey 60 n) ∧
    (windowKey n1 = windowKey n2 ↔ n1 / 60 = n2 / 60) ∧
    ((checkRateLimit maxReq waId n2
        (checkRateLimit maxReq waId n1 []).2).2.length = 1 ↔
      n1 / 60 = n2 / 60) := by
  have hiff : windowKey n1 = windowKey n2 ↔ n1 / 60 = n2 / 60 := by
    constructor
    · intro h
      exact Nat.eq_of_mul_eq_mul_right (by norm_num) h
    · intro h
      unfold windowKey
      rw [h]
  refine ⟨fun n => rfl, hiff, ?_⟩
  have h1 : (checkRateLimit maxReq waId n1 []).2 =
      [⟨waId, windowKey n1, 1⟩] := by
    simp [checkRateLimit]
  rw [h1]
  by_cases h : windowKey n1 = windowKey n2
  · have hk : rlKey waId n2 ⟨waId, windowKey n1, 1⟩ = true := by
      simp [rlKey, h]
    simp only [checkRateLimit, List.find?, hk]
    have : ¬ (1 ≥ maxReq) := by omega
    simp [this, hiff.mp h]
  · have hk : rlKey waId n2 ⟨waId, windowKey n1, 1⟩ = false := by
      simp [rlKey]
      intro hne
      omega
    simp only [checkRateLimit, List.find?, hk]
    simp only [hiff] at h
    simp [h]

/-- C4 amended witness: seconds 0 and 59 share the minute window; the
second call increments the single row. -/
theorem windowKey_fixed_minute_witness :
    (2 ≤ 30) ∧
    ((checkRateLimit 30 ("92300") 59
        (checkRateLimit 30 ("92300") 0 []).2).2.length = 1 ↔
      0 / 60 = 59 / 60) :=
  ⟨by decide, (windowKey_fixed_minute 30 ("92300") 0 59 (by decide)).2.2⟩

/-- C5: for one sender and one window, sequential calls hold the single
counter row at `min n maxReq`, so the stored count never exceeds the
configured max; calls are allowed exactly while fewer than `maxReq`
have been made; once a found row has reached the max the call rejects
without writing; and the first request of a window (no row found)
creates a fresh row at count 1 and is allowed. -/
theorem rateLimit_reject_at_max (maxReq : Nat) (waId : String) (now : Nat)
    (hmax : 1 ≤ maxReq) :
    (∀ n, iterCalls maxReq waId now n =
        if n = 0 then [] else [⟨waId, windowKey now, min n maxReq⟩]) ∧
    (∀ n, (checkRateLimit maxReq waId now (iterCalls maxReq waId now n)).1.1 =
        decide (n < maxReq)) ∧
    (∀ rows r, rows.find? (rlKey waId now) = some r →
        maxReq ≤ r.request_count →
        checkRateLimit maxReq waId now rows = ((false, 0), rows)) ∧
    (∀ rows, rows.find? (rlKey waId now) = none →
        checkRateLimit maxReq waId now rows =
          ((true, (maxReq : Int) - 1),
           rows ++ [⟨waId, windowKey now, 1⟩])) := by
  have hself : rlKey waId now ⟨waId, windowKey now, 1⟩ = true := by
    simp [rlKey]
  have hrow : ∀ c, rlKey waId now ⟨waId, windowKey now, c⟩ = true := by
    intro c
    simp [rlKey]
  have hfound : ∀ rows r, rows.find? (rlKey waId now) = some r →
      maxReq ≤ r.request_count →
      checkRateLimit maxReq waId now rows = ((false, 0), rows) := by
    intro rows r hf hge
    simp [checkRateLimit, hf, hge]
  have hnone : ∀ rows, rows.find? (rlKey waId now) = none →
      checkRateLimit maxReq waId now rows =
        ((true, (maxReq : Int) - 1),
         rows ++ [⟨waId, windowKey now, 1⟩]) := by
    intro rows hf
    simp [checkRateLimit, hf]
  have hiter : ∀ n, iterCalls maxReq waId now n =
      if n = 0 then [] else [⟨waId, windowKey now, min n maxReq⟩] := by
    intro n
    induction n with
    | zero => rfl
    | succ n ih =>
      by_cases hn : n = 0
      · subst hn
        simp only [iterCalls, ih]
        rw [hnone [] (by rfl)]
        simp
        omega
      · simp only [iterCalls, ih, if_neg hn]
        have hf : List.find? (rlKey waId now)
            [⟨waId, windowKey now, min n maxReq⟩] =
            some ⟨waId, windowKey now, min n maxReq⟩ := by
          simp [List.find?, hrow]
        by_cases hge : maxReq ≤ min n maxReq
        · rw [hfound _ _ hf hge]
          have : min (n + 1) maxReq = min n maxReq := by omega
          simp [this, hn]
        · have hlt : ¬ (min n maxReq ≥ maxReq) := hge
          simp only [checkRateLimit, hf]
          rw [if_neg hlt]
          have h1 : min n maxReq + 1 = min (n + 1) maxReq := by omega
          simp [hrow, h1]
  refine ⟨hiter, ?_, hfound, hnone⟩
  intro n
  rw [hiter n]
  by_cases hn : n = 0
  · subst hn
    rw [if_pos rfl]
    rw [hnone [] (by rfl)]
    simp
    omega
  · rw [if_neg hn]
    have hf : List.find? (rlKey waId now)
        [⟨waId, windowKey now, min n maxReq⟩] =
        some ⟨waId, windowKey now, min n maxReq⟩ := by
      simp [List.find?, hrow]
    by_cases hlt : n < maxReq
    · have : ¬ (min n maxReq ≥ maxReq) := by omega
      simp [checkRateLimit, hf, this, hlt]
    · have : min n maxReq ≥ maxReq := by omega
      rw [hfound _ _ hf this]
      simp [hlt]

/-- C5 witness: with the default max of 30, the 30th call is allowed,
the 31st is rejected, and the counter sticks at 30. -/
theorem rateLimit_reject_at_max_witness :
    (1 ≤ 30) ∧
    (checkRateLimit 30 ("92300") 1000
      (iterCalls 30 ("92300") 1000 30)).1.1 = decide (30 < 30) ∧
    iterCalls 30 ("92300") 1000 31 =
      [⟨("92300"), windowKey 1000, min 31 30⟩] :=
  ⟨by decide,
   (rateLimit_reject_at_max 30 ("92300") 1000 (by decide)).2.1 30,
   by
     rw [(rateLimit_reject_at_max 30 ("92300") 1000 (by decide)).1 31]
     decide⟩

/-- C8 counterexample: `sendButtons` passes a 100-character button
title into the outbound payload completely unchanged — no truncation
to any provider length limit (the repository's own secondary bot
documents that limit as 20 characters) takes place. -/
theorem sendButtons_no_truncation_counterexample :
    buttonsPayload ("92300") ("body") [(("B1"), title100)] =
      .buttons ("92300") ("body") [(("B1"), title100)] ∧
    title100.length = 100 ∧
    sendButtons ctxBase ("92300") ("body") [(("B1"), title100)]
      (emptyStore, []) =
      .ok (logMessage emptyStore ("92300") ("outbound") ("buttons")
             ctxBase.now,
           [.buttons ("92300") ("body") [(("B1"), title100)]]) := by
  decide

/-- C8 amended: the outbound payload of `sendButtons` carries at most
three buttons — the first three of the argument list — and the button
titles are passed through unmodified (no truncation). -/
theorem sendButtons_caps_at_three (dst bodyText : String)
    (btns : List (String × String)) :
    buttonsPayload dst bodyText btns = .buttons dst bodyText (btns.take 3) ∧
    (btns.take 3).length ≤ 3 ∧
    (btns.take 3).map Prod.snd = (btns.map Prod.snd).take 3 := by
  refine ⟨?_, ?_, ?_⟩
  · simp [buttonsPayload]
  · simp [List.length_take]
  · simp [List.map_take]

/-- C9 counterexample: when the provider answers non-2xx, `sendText`
throws after the attempt and no outbound `message_logs` row is written
— the resulting store still has an empty log. -/
theorem outbound_log_skipped_on_failure :
    sendText { ctxBase with net := fun _ => false } ("92300") ("hello")
      (emptyStore, []) =
      .error (emptyStore, [.text ("92300") ("hello")]) ∧
    emptyStore.messageLogs = [] := by
  decide

/-- C9 amended: each of `sendText`, `sendButtons`, `sendList` writes
exactly one `direction=outbound` log record when the provider call
succeeds, and writes none when the call throws (missing token or
non-2xx): the failure propagates before `logMessage` runs. -/
theorem outbound_send_logging (ctx : Ctx) (dst body btnText : String)
    (btns : List (String × String)) (sections : List ListSection)
    (s : St) :
    (∀ s2, sendText ctx dst body s = .ok s2 →
        s2.1.messageLogs = s.1.messageLogs ++
          [⟨dst, ("outbound"), ("text"), ("success"), ctx.now⟩]) ∧
    (∀ s2, sendText ctx dst body s = .error s2 →
        s2.1.messageLogs = s.1.messageLogs) ∧
    (∀ s2, sendButtons ctx dst body btns s = .ok s2 →
        s2.1.messageLogs = s.1.messageLogs ++
          [⟨dst, ("outbound"), ("buttons"), ("success"), ctx.now⟩]) ∧
    (∀ s2, sendButtons ctx dst body btns s = .error s2 →
        s2.1.messageLogs = s.1.messageLogs) ∧
    (∀ s2, sendList ctx dst body btnText sections s = .ok s2 →
        s2.1.messageLogs = s.1.messageLogs ++
          [⟨dst, ("outbound"), ("list"), ("success"), ctx.now⟩]) ∧
    (∀ s2, sendList ctx dst body btnText sections s = .error s2 →
        s2.1.messageLogs = s.1.messageLogs) := by
  have hsend : ∀ p : SendPayload, apiSend ctx p s = .error s ∨
      apiSend ctx p s = .ok (s.1, s.2 ++ [p]) ∨
      apiSend ctx p s = .error (s.1, s.2 ++ [p]) := by
    intro p
    unfold apiSend
    cases htok : ctx.accessToken
    · simp [htok]
    · cases hnet : ctx.net p <;> simp [htok, hnet]
  have hok : ∀ (p : SendPayload) (mt : String) (s2 : St),
      (apiSend ctx p s).bind (fun s1 =>
        Except.ok (logMessage s1.1 dst ("outbound") mt ctx.now, s1.2)) =
        Except.ok s2 →
      s2.1.messageLogs = s.1.messageLogs ++
        [⟨dst, ("outbound"), mt, ("success"), ctx.now⟩] := by
    intro p mt s2 h
    rcases hsend p with hc | hc | hc <;> rw [hc] at h
    · exact Except.noConfusion h
    · injection h with h2
      subst h2
      simp [logMessage]
    · exact Except.noConfusion h
  have herr : ∀ (p : SendPayload) (mt : String) (s2 : St),
      (apiSend ctx p s).bind (fun s1 =>
        Except.ok (logMessage s1.1 dst ("outbound") mt ctx.now, s1.2)) =
        Except.error s2 →
      s2.1.messageLogs = s.1.messageLogs := by
    intro p mt s2 h
    rcases hsend p with hc | hc | hc <;> rw [hc] at h
    · injection h with h2
      rw [← h2]
    · exact Except.noConfusion h
    · injection h with h2
      rw [← h2]
  exact ⟨fun s2 h => hok (.text dst body) ("text") s2 h,
         fun s2 h => herr (.text dst body) ("text") s2 h,
         fun s2 h => hok (buttonsPayload dst body btns) ("buttons") s2 h,
         fun s2 h => herr (buttonsPayload dst body btns) ("buttons") s2 h,
         fun s2 h => hok (.list dst body btnText sections) ("list") s2 h,
         fun s2 h => herr (.list dst body btnText sections) ("list") s2 h⟩

/-- C9 amended witness: a concrete successful `sendText` appends one
outbound log row. -/
theorem outbound_send_logging_witness :
    (logMessage emptyStore ("92300") ("outbound") ("text") ctxBase.now,
      ([SendPayload.text ("92300") ("x")] : List SendPayload)).1.messageLogs =
      emptyStore.messageLogs ++
        [⟨("92300"), ("outbound"), ("text"), ("success"), ctxBase.now⟩] :=
  (outbound_send_logging ctxBase ("92300") ("x") ("bt") [] []
    (emptyStore, [])).1 _ (by decide)

/-- C10: with an app secret configured, a provided signature whose
stripped hex value is not 64 bytes long makes `verifySignature` throw
(`crypto.timingSafeEqual` requires equal-length buffers); the top-level
handler converts the throw to HTTP 200 with body status `error` — not
the HTTP 401 that a same-length invalid signature receives. -/
theorem signature_length_mismatch_throws (ctx : Ctx)
    (body sig sig2 : String) (st0 : Store)
    (hsecret : ctx.appSecret ≠ "")
    (hhex : ∀ k m, (ctx.hmac k m).utf8ByteSize = 64)
    (hlen : (stripSigScheme sig).utf8ByteSize ≠ 64) :
    verifySignature ctx.hmac ctx.appSecret body sig = .error () ∧
    handlePost ctx body sig st0 =
      { status := ("error"), http := 200, store := st0, sends := [],
        trace := [] } ∧
    (handlePost ctx body sig st0).http ≠ 401 ∧
    ((stripSigScheme sig2).utf8ByteSize = 64 →
      stripSigScheme sig2 ≠ ctx.hmac ctx.appSecret body →
      handlePost ctx body sig2 st0 =
        { status := ("invalid_signature"), http := 401, store := st0,
          sends := [], trace := [] }) := by
  have hbeq : (ctx.appSecret == ("")) = false := by
    simp [hsecret]
  have hverify : verifySignature ctx.hmac ctx.appSecret body sig =
      .error () := by
    unfold verifySignature timingSafeEq
    rw [hbeq]
    simp only [Bool.false_eq_true, if_false]
    rw [if_pos]
    rw [hhex]
    omega
  have hpost : handlePost ctx body sig st0 =
      { status := ("error"), http := 200, store := st0, sends := [],
        trace := [] } := by
    unfold handlePost
    rw [hbeq]
    simp only [Bool.false_eq_true, if_false, hverify]
  refine ⟨hverify, hpost, by rw [hpost]; simp, ?_⟩
  intro heq hne
  have hverify2 : verifySignature ctx.hmac ctx.appSecret body sig2 =
      .ok false := by
    unfold verifySignature timingSafeEq
    rw [hbeq]
    simp only [Bool.false_eq_true, if_false]
    rw [if_neg (by rw [hhex, heq]; omega)]
    simp [hne]
    intro hc
    exact absurd hc.symm hne
  unfold handlePost
  rw [hbeq]
  simp only [Bool.false_eq_true, if_false, hverify2]

/-- C10 witness: secret `sec`, provided signature `sha256=abc` (3 bytes
after stripping) throws and yields status `error` with HTTP 200, while
the 64-byte wrong signature of all `b`s yields HTTP 401. -/
theorem signature_length_mismatch_throws_witness :
    handlePost { ctxBase with appSecret := ("sec") } ("payload")
      ("sha256=abc") emptyStore =
      { status := ("error"), http := 200, store := emptyStore,
        sends := [], trace := [] } ∧
    handlePost { ctxBase with appSecret := ("sec") } ("payload")
      (("sha256=") ++ String.mk (List.replicate 64 'b')) emptyStore =
      { status := ("invalid_signature"), http := 401, store := emptyStore,
        sends := [], trace := [] } :=
  ⟨(signature_length_mismatch_throws { ctxBase with appSecret := ("sec") }
      ("payload") ("sha256=abc") ("x") emptyStore (by decide)
      (fun _ _ => (by decide : hex64.utf8ByteSize = 64)) (by decide)).2.1,
   (signature_length_mismatch_throws { ctxBase with appSecret := ("sec") }
      ("payload") ("x") (("sha256=") ++ String.mk (List.replicate 64 'b'))
      emptyStore (by decide)
      (fun _ _ => (by decide : hex64.utf8ByteSize = 64)) (by decide)).2.2.2
      (by decide) (by decide)⟩

/-- A completed or thrown flow always answers HTTP 200. -/
theorem finish_http (status : String) (tr : List Event) (r : Except St St) :
    (finish status tr r).http = 200 := by
  unfold finish
  cases r with
  | ok s => rfl
  | error s => rfl

/-- Every outcome past extraction answers HTTP 200. -/
theorem processMsg_http (ctx : Ctx) (m : Msg) (st0 : Store) :
    (processMsg ctx m st0).http = 200 := by
  simp only [processMsg]
  repeat' split
  all_goals first | rfl | exact finish_http _ _ _

/-- C2 counterexample: a body that is unparseable JSON receives HTTP
400 with status `invalid_json`, not the HTTP 200 the claim asserts for
every non-signature outcome (`ctxBase.parse` rejects every body). -/
theorem invalid_json_gets_http400 :
    (handlePost ctxBase ("not json") ("sig") emptyStore).http = 400 ∧
    (handlePost ctxBase ("not json") ("sig") emptyStore).status =
      ("invalid_json") ∧
    (handlePost ctxBase ("not json") ("sig") emptyStore).status ≠
      ("invalid_signature") := by
  decide

/-- C2 amended: every `POST` outcome answers HTTP 200 except an invalid
signature (HTTP 401, status `invalid_signature`) and an unparseable
JSON body (HTTP 400, status `invalid_json`); a parseable payload
without the expected shape is still `ignored` with HTTP 200. -/
theorem response_always_200_except_auth_and_parse (ctx : Ctx)
    (body sig : String) (st0 : Store) :
    (handlePost ctx body sig st0).http = 200 ∨
    ((handlePost ctx body sig st0).http = 401 ∧
     (handlePost ctx body sig st0).status = ("invalid_signature")) ∨
    ((handlePost ctx body sig st0).http = 400 ∧
     (handlePost ctx body sig st0).status = ("invalid_json") ∧
     ctx.parse body = none) := by
  have hparsed : ∀ st : Store, (handleParsed ctx body st).http = 200 ∨
      ((handleParsed ctx body st).http = 400 ∧
       (handleParsed ctx body st).status = ("invalid_json") ∧
       ctx.parse body = none) := by
    intro st
    unfold handleParsed
    split
    · right
      exact ⟨rfl, rfl, by assumption⟩
    · split
      · left
        rfl
      · split
        · left
          rfl
        · left
          exact processMsg_http ctx _ st
  unfold handlePost
  split
  · rcases hparsed st0 with h | h
    · exact .inl h
    · exact .inr (.inr h)
  · split
    · left
      rfl
    · right
      left
      exact ⟨rfl, rfl⟩
    · rcases hparsed st0 with h | h
      · exact .inl h
      · exact .inr (.inr h)

/-- C7: a payload whose envelope carries no `messages` array (such as a
delivery-status callback) extracts to `null`, and the handler answers
`ignored` with HTTP 200 leaving the store — Deduplicator, RateLimiter,
UserStore and every other table — completely untouched, with no sends
and no pipeline events. -/
theorem no_messages_ignored (ctx : Ctx) (body sig : String) (st0 : Store)
    (data : JsonVal)
    (hsig : ctx.appSecret = "" ∨
      verifySignature ctx.hmac ctx.appSecret body sig = .ok true)
    (hparse : ctx.parse body = some data)
    (hnm : noMessages data = true) :
    extractMessage data = none ∧
    handlePost ctx body sig st0 =
      { status := ("ignored"), http := 200, store := st0, sends := [],
        trace := [] } := by
  have hext : extractMessage data = none := by
    unfold noMessages at hnm
    unfold extractMessage
    match hmo : messagesOf data with
    | none => rfl
    | some [] => rfl
    | some (x :: xs) =>
      rw [hmo] at hnm
      simp at hnm
  have hparsed : handleParsed ctx body st0 =
      { status := ("ignored"), http := 200, store := st0, sends := [],
        trace := [] } := by
    simp only [handleParsed, hparse, hext]
  refine ⟨hext, ?_⟩
  unfold handlePost
  rcases hsig with hs | hs
  · rw [if_pos (by simp [hs]), hparsed]
  · by_cases hempty : ctx.appSecret == ("")
    · rw [if_pos hempty, hparsed]
    · rw [if_neg hempty, hs, hparsed]

/-- C7 witness: a concrete status callback is extracted to `null` and
ignored with the store unchanged. -/
theorem no_messages_ignored_witness :
    extractMessage statusCallbackPayload = none ∧
    handlePost { ctxBase with parse := fun _ => some statusCallbackPayload }
      ("body") ("sig") emptyStore =
      { status := ("ignored"), http := 200, store := emptyStore,
        sends := [], trace := [] } :=
  no_messages_ignored
    { ctxBase with parse := fun _ => some statusCallbackPayload }
    ("body") ("sig") emptyStore statusCallbackPayload
    (.inl rfl) rfl (by decide)

/-- The trace a flow result is reported with is the one accumulated by
the pipeline, whatever the flow did. -/
theorem finish_trace (status : String) (tr : List Event)
    (r : Except St St) : (finish status tr r).trace = tr := by
  unfold finish
  cases r with
  | ok s => rfl
  | error s => rfl

/-- When the signature passes, the body parses and extraction yields a
message with non-empty id and sender, the handler reduces to
`processMsg`. -/
theorem handlePost_extract (ctx : Ctx) (body sig : String) (st0 : Store)
    (data : JsonVal) (m : Msg)
    (hsig : ctx.appSecret = "" ∨
      verifySignature ctx.hmac ctx.appSecret body sig = .ok true)
    (hparse : ctx.parse body = some data)
    (hext : extractMessage data = some m)
    (hid : ((m.id).getD ("")).isEmpty = false)
    (hfrom : ((m.from_).getD ("")).isEmpty = false) :
    handlePost ctx body sig st0 = processMsg ctx m st0 := by
  have hparsed : handleParsed ctx body st0 = processMsg ctx m st0 := by
    simp only [handleParsed, hparse, hext, hid, hfrom]
    rfl
  unfold handlePost
  rcases hsig with hs | hs
  · rw [if_pos (by simp [hs]), hparsed]
  · by_cases hempty : ctx.appSecret == ("")
    · rw [if_pos hempty, hparsed]
    · rw [if_neg hempty, hs, hparsed]

/-- C3 counterexample: on a concrete fresh text message the pipeline's
trace is check, mark, blocked-check, rate-limit, user-upsert, dispatch —
the `markProcessed` write (position 1) precedes the conversation-routing
action (position 5), contradicting the claimed check–act–mark order. -/
theorem mark_precedes_act_counterexample :
    (handlePost { ctxBase with parse := fun _ => some (textPayload ("hi")) }
      ("body") ("sig") emptyStore).trace =
      [.checkDedup, .markProc, .checkBlocked, .checkRate, .upsertUser,
       .dispatched] ∧
    ((handlePost { ctxBase with parse := fun _ => some (textPayload ("hi")) }
      ("body") ("sig") emptyStore).trace.take 2 =
      [.checkDedup, .markProc]) ∧
    Event.dispatched ∈
      (handlePost { ctxBase with parse := fun _ => some (textPayload ("hi")) }
        ("body") ("sig") emptyStore).trace.drop 2 := by
  decide

/-- C3 amended: deduplication is two separate calls in the order check,
then mark, then act — for every message that passes extraction and is
not a duplicate, `markProcessed` runs immediately after the
`alreadyProcessed` check and before the blocked check, the rate limit,
the user upsert and the flow dispatch (the trace is one of the three
act prefixes, each starting check, mark). -/
theorem dedup_check_then_mark_then_act (ctx : Ctx) (body sig : String)
    (st0 : Store) (data : JsonVal) (m : Msg)
    (hsig : ctx.appSecret = "" ∨
      verifySignature ctx.hmac ctx.appSecret body sig = .ok true)
    (hparse : ctx.parse body = some data)
    (hext : extractMessage data = some m)
    (hid : ((m.id).getD ("")).isEmpty = false)
    (hfrom : ((m.from_).getD ("")).isEmpty = false)
    (hfresh : alreadyProcessed st0 ((m.id).getD ("")) = false) :
    (handlePost ctx body sig st0).trace =
      [.checkDedup, .markProc, .checkBlocked] ∨
    (handlePost ctx body sig st0).trace =
      [.checkDedup, .markProc, .checkBlocked, .checkRate] ∨
    (handlePost ctx body sig st0).trace =
      [.checkDedup, .markProc, .checkBlocked, .checkRate, .upsertUser,
       .dispatched] := by
  rw [handlePost_extract ctx body sig st0 data m hsig hparse hext hid hfrom]
  simp only [processMsg]
  have hfresh1 : alreadyProcessed
      (logMessage st0 ((m.from_).getD ("")) ("inbound")
        (if m.kind.isEmpty then ("unknown") else m.kind) ctx.now)
      ((m.id).getD ("")) = false := hfresh
  rw [if_neg (by rw [hfresh1]; simp)]
  repeat' split
  all_goals first
    | (left; rfl)
    | (right; left; exact finish_trace _ _ _)
    | (right; right; exact finish_trace _ _ _)

/-- C3 amended witness: the concrete fresh text message takes the full
act path, whose trace starts check, mark. -/
theorem dedup_check_then_mark_then_act_witness :
    (handlePost { ctxBase with parse := fun _ => some (textPayload ("hey")) }
      ("body") ("sig") emptyStore).trace =
      [.checkDedup, .markProc, .checkBlocked] ∨
    (handlePost { ctxBase with parse := fun _ => some (textPayload ("hey")) }
      ("body") ("sig") emptyStore).trace =
      [.checkDedup, .markProc, .checkBlocked, .checkRate] ∨
    (handlePost { ctxBase with parse := fun _ => some (textPayload ("hey")) }
      ("body") ("sig") emptyStore).trace =
      [.checkDedup, .markProc, .checkBlocked, .checkRate, .upsertUser,
       .dispatched] :=
  dedup_check_then_mark_then_act
    { ctxBase with parse := fun _ => some (textPayload ("hey")) }
    ("body") ("sig") emptyStore (textPayload ("hey"))
    { from_ := some ("923001234567"), id := some ("wamid.test1"),
      type := some ("text"), kind := ("text"), text := some ("hey") }
    (.inl rfl) rfl (by decide) (by decide) (by decide) (by decide)

/-- `finish` reports the state the flow ended in, completed or thrown. -/
theorem finish_store (status : String) (tr : List Event)
    (r : Except St St) : (finish status tr r).store = (stOf r).1 := by
  unfold finish stOf
  cases r with
  | ok s => rfl
  | error s => rfl

/-- The three possible outcomes of one provider call. -/
theorem apiSend_cases (ctx : Ctx) (p : SendPayload) (s : St) :
    apiSend ctx p s = .error s ∨
    apiSend ctx p s = .ok (s.1, s.2 ++ [p]) ∨
    apiSend ctx p s = .error (s.1, s.2 ++ [p]) := by
  unfold apiSend
  cases htok : ctx.accessToken
  · simp [htok]
  · cases hnet : ctx.net p <;> simp [htok, hnet]

/-- Chaining two flow steps preserves a store projection both steps
preserve, whether either step throws or completes. -/
theorem pr_stOf_bind {β : Type} (pr : Store → β) (f : Except St St)
    (g : St → Except St St) (s : St)
    (hf : pr (stOf f).1 = pr s.1)
    (hg : ∀ s1, pr (stOf (g s1)).1 = pr s1.1) :
    pr (stOf (f.bind g)).1 = pr s.1 := by
  cases f with
  | error e => exact hf
  | ok s1 => exact (hg s1).trans hf

/-- A provider call followed by the outbound log preserves every store
projection the log append preserves. -/
theorem pr_send {β : Type} (pr : Store → β)
    (hlog : ∀ st w d mt n, pr (logMessage st w d mt n) = pr st)
    (ctx : Ctx) (p : SendPayload) (mt dst : String) (s : St) :
    pr (stOf ((apiSend ctx p s).bind (fun s1 =>
      .ok (logMessage s1.1 dst ("outbound") mt ctx.now, s1.2)))).1 =
      pr s.1 := by
  rcases apiSend_cases ctx p s with hc | hc | hc <;> rw [hc]
  · rfl
  · exact hlog _ _ _ _ _
  · rfl

theorem pr_sendText {β : Type} (pr : Store → β)
    (hlog : ∀ st w d mt n, pr (logMessage st w d mt n) = pr st)
    (ctx : Ctx) (dst b : String) (s : St) :
    pr (stOf (sendText ctx dst b s)).1 = pr s.1 :=
  pr_send pr hlog ctx (.text dst b) ("text") dst s

theorem pr_sendButtons {β : Type} (pr : Store → β)
    (hlog : ∀ st w d mt n, pr (logMessage st w d mt n) = pr st)
    (ctx : Ctx) (dst b : String) (btns : List (String × String)) (s : St) :
    pr (stOf (sendButtons ctx dst b btns s)).1 = pr s.1 :=
  pr_send pr hlog ctx (buttonsPayload dst b btns) ("buttons") dst s

theorem pr_sendList {β : Type} (pr : Store → β)
    (hlog : ∀ st w d mt n, pr (logMessage st w d mt n) = pr st)
    (ctx : Ctx) (dst b bt : String) (secs : List ListSection) (s : St) :
    pr (stOf (sendList ctx dst b bt secs s)).1 = pr s.1 :=
  pr_send pr hlog ctx (.list dst b bt secs) ("list") dst s

theorem pr_showHome {β : Type} (pr : Store → β)
    (hlog : ∀ st w d mt n, pr (logMessage st w d mt n) = pr st)
    (ctx : Ctx) (dst : String) (s : St) :
    pr (stOf (showHome ctx dst s)).1 = pr s.1 :=
  pr_sendButtons pr hlog ctx dst _ _ s

theorem pr_showFAQ {β : Type} (pr : Store → β)
    (hlog : ∀ st w d mt n, pr (logMessage st w d mt n) = pr st)
    (ctx : Ctx) (dst : String) (s : St) :
    pr (stOf (showFAQ ctx dst s)).1 = pr s.1 :=
  pr_stOf_bind pr _ _ s (pr_sendText pr hlog ctx dst _ s)
    (fun s1 => pr_sendButtons pr hlog ctx dst _ _ s1)

theorem pr_showCatalogue {β : Type} (pr : Store → β)
    (hlog : ∀ st w d mt n, pr (logMessage st w d mt n) = pr st)
    (ctx : Ctx) (dst : String) (s : St) :
    pr (stOf (showCatalogue ctx dst s)).1 = pr s.1 := by
  simp only [showCatalogue]
  split
  · exact pr_sendList pr hlog ctx dst _ _ _ s
  · exact pr_sendList pr hlog ctx dst _ _ _ s

theorem pr_showBooking {β : Type} (pr : Store → β)
    (hlog : ∀ st w d mt n, pr (logMessage st w d mt n) = pr st)
    (ctx : Ctx) (dst : String) (s : St) :
    pr (stOf (showBooking ctx dst s)).1 = pr s.1 :=
  pr_stOf_bind pr _ _ s (pr_sendText pr hlog ctx dst _ s)
    (fun s1 => pr_sendButtons pr hlog ctx dst _ _ s1)

theorem pr_showMore {β : Type} (pr : Store → β)
    (hlog : ∀ st w d mt n, pr (logMessage st w d mt n) = pr st)
    (ctx : Ctx) (dst : String) (s : St) :
    pr (stOf (showMore ctx dst s)).1 = pr s.1 :=
  pr_sendButtons pr hlog ctx dst _ _ s

theorem pr_showHistory {β : Type} (pr : Store → β)
    (hlog : ∀ st w d mt n, pr (logMessage st w d mt n) = pr st)
    (ctx : Ctx) (dst w : String) (s : St) :
    pr (stOf (showHistory ctx dst w s)).1 = pr s.1 := by
  simp only [showHistory]
  split
  · exact pr_stOf_bind pr _ _ s (pr_sendText pr hlog ctx dst _ s)
      (fun s1 => pr_showHome pr hlog ctx dst s1)
  · exact pr_stOf_bind pr _ _ s (pr_sendText pr hlog ctx dst _ s)
      (fun s1 => pr_showHome pr hlog ctx dst s1)

theorem pr_showRateLimited {β : Type} (pr : Store → β)
    (hlog : ∀ st w d mt n, pr (logMessage st w d mt n) = pr st)
    (ctx : Ctx) (dst : String) (s : St) :
    pr (stOf (showRateLimited ctx dst s)).1 = pr s.1 :=
  pr_sendText pr hlog ctx dst _ s

theorem pr_showLeadCapture {β : Type} (pr : Store → β)
    (hlog : ∀ st w d mt n, pr (logMessage st w d mt n) = pr st)
    (hlead : ∀ st w p nm src n, pr (captureLead st w p nm src n) = pr st)
    (ctx : Ctx) (dst w : String) (s : St) :
    pr (stOf (showLeadCapture ctx dst w s)).1 = pr s.1 := by
  unfold showLeadCapture
  refine (pr_stOf_bind pr _ _
    ((captureLead s.1 w dst none ("whatsapp_demo") ctx.now, s.2) : St)
    (pr_sendText pr hlog ctx dst _ _)
    (fun s1 => pr_showHome pr hlog ctx dst s1)).trans ?_
  exact hlead s.1 w dst none ("whatsapp_demo") ctx.now

theorem pr_handleOrder {β : Type} (pr : Store → β)
    (hlog : ∀ st w d mt n, pr (logMessage st w d mt n) = pr st)
    (horder : ∀ st a b c d e n, pr (createOrder st a b c d e n) = pr st)
    (ctx : Ctx) (dst w : String) (itemId : Option String) (s : St) :
    pr (stOf (handleOrder ctx dst w itemId s)).1 = pr s.1 := by
  unfold handleOrder
  split
  · refine (pr_stOf_bind pr _ _
      ((createOrder s.1 w dst (itemId.getD ("")) _ _ ctx.now, s.2) : St)
      (pr_sendText pr hlog ctx dst _ _)
      (fun s1 => pr_showHome pr hlog ctx dst s1)).trans ?_
    exact horder _ _ _ _ _ _ _
  · exact pr_stOf_bind pr _ _ s (pr_sendText pr hlog ctx dst _ s)
      (fun s1 => pr_showCatalogue pr hlog ctx dst s1)

theorem pr_runFlow {β : Type} (pr : Store → β)
    (hlog : ∀ st w d mt n, pr (logMessage st w d mt n) = pr st)
    (hlead : ∀ st w p nm src n, pr (captureLead st w p nm src n) = pr st)
    (ctx : Ctx) (dst w : String) (fl : BotFlow) (s : St) :
    pr (stOf (runFlow ctx dst w fl s)).1 = pr s.1 := by
  cases fl with
  | home => exact pr_showHome pr hlog ctx dst s
  | faq => exact pr_showFAQ pr hlog ctx dst s
  | catalogue => exact pr_showCatalogue pr hlog ctx dst s
  | booking => exact pr_showBooking pr hlog ctx dst s
  | leadCapture => exact pr_showLeadCapture pr hlog hlead ctx dst w s
  | more => exact pr_showMore pr hlog ctx dst s
  | history => exact pr_showHistory pr hlog ctx dst w s

theorem pr_dispatchMsg {β : Type} (pr : Store → β)
    (hlog : ∀ st w d mt n, pr (logMessage st w d mt n) = pr st)
    (hlead : ∀ st w p nm src n, pr (captureLead st w p nm src n) = pr st)
    (horder : ∀ st a b c d e n, pr (createOrder st a b c d e n) = pr st)
    (ctx : Ctx) (m : Msg) (dst w : String) (s : St) :
    pr (stOf (dispatchMsg ctx m dst w s)).1 = pr s.1 := by
  unfold dispatchMsg
  split
  · exact pr_runFlow pr hlog hlead ctx dst w _ s
  · split
    · exact pr_runFlow pr hlog hlead ctx dst w _ s
    · split
      · exact pr_handleOrder pr hlog horder ctx dst w _ s
      · exact pr_stOf_bind pr _ _ s (pr_sendText pr hlog ctx dst _ s)
          (fun s1 => pr_showHome pr hlog ctx dst s1)

/-- The user upsert touches only the `users` table. -/
theorem getOrCreateUser_tables (st : Store) (w p : String) (n : Nat) :
    (getOrCreateUser st w p n).processed = st.processed ∧
    (getOrCreateUser st w p n).orders = st.orders ∧
    (getOrCreateUser st w p n).leads = st.leads ∧
    (getOrCreateUser st w p n).menuItems = st.menuItems ∧
    (getOrCreateUser st w p n).rateLimits = st.rateLimits := by
  unfold getOrCreateUser
  split
  · exact ⟨rfl, rfl, rfl, rfl, rfl⟩
  · exact ⟨rfl, rfl, rfl, rfl, rfl⟩

/-- A processed-messages list that ends in a record for `msgId` makes
the dedup check answer `true`. -/
theorem alreadyProcessed_of_append (st : Store) (msgId : String)
    (r : ProcRec) (xs : List ProcRec)
    (hp : st.processed = xs ++ [r]) (hr : r.message_id = msgId) :
    alreadyProcessed st msgId = true := by
  unfold alreadyProcessed
  rw [hp]
  simp [List.filter_append, List.filter, hr]

/-- The catalogue lookup reads only the `menu_items` table. -/
theorem itemLookup_congr (a b : Store) (i : Option String)
    (hmenu : a.menuItems = b.menuItems) :
    itemLookup a i = itemLookup b i := by
  unfold itemLookup effectiveItems getMenuItems
  rw [hmenu]

/-- On the happy path — fresh message id, sender not blocked, rate
limit allowing — the pipeline reduces to the full act sequence ending
in the dispatch. -/
theorem processMsg_happy (ctx : Ctx) (m : Msg) (st0 : Store)
    (hfresh : alreadyProcessed st0 ((m.id).getD ("")) = false)
    (hnb : isUserBlocked st0 ((m.from_).getD ("")) = false)
    (hrl : (checkRateLimit ctx.maxReq ((m.from_).getD ("")) ctx.now
      st0.rateLimits).1.1 = true) :
    processMsg ctx m st0 =
      finish ("ok")
        [.checkDedup, .markProc, .checkBlocked, .checkRate, .upsertUser,
         .dispatched]
        (dispatchMsg ctx m ((m.from_).getD ("")) ((m.from_).getD (""))
          (getOrCreateUser
            { markProcessed
                (logMessage st0 ((m.from_).getD ("")) ("inbound")
                  (if m.kind.isEmpty then ("unknown") else m.kind) ctx.now)
                ((m.id).getD ("")) ((m.from_).getD ("")) m.kind ctx.now with
              rateLimits := (checkRateLimit ctx.maxReq ((m.from_).getD (""))
                ctx.now st0.rateLimits).2 }
            ((m.from_).getD ("")) ((m.from_).getD ("")) ctx.now, [])) := by
  simp only [processMsg]
  have hfresh1 : alreadyProcessed
      (logMessage st0 ((m.from_).getD ("")) ("inbound")
        (if m.kind.isEmpty then ("unknown") else m.kind) ctx.now)
      ((m.id).getD ("")) = false := hfresh
  rw [if_neg (by rw [hfresh1]; simp)]
  have hnb1 : isUserBlocked
      (markProcessed
        (logMessage st0 ((m.from_).getD ("")) ("inbound")
          (if m.kind.isEmpty then ("unknown") else m.kind) ctx.now)
        ((m.id).getD ("")) ((m.from_).getD ("")) m.kind ctx.now)
      ((m.from_).getD ("")) = false := hnb
  rw [if_neg (by rw [hnb1]; simp)]
  have hrl1 : (checkRateLimit ctx.maxReq ((m.from_).getD ("")) ctx.now
      (markProcessed
        (logMessage st0 ((m.from_).getD ("")) ("inbound")
          (if m.kind.isEmpty then ("unknown") else m.kind) ctx.now)
        ((m.id).getD ("")) ((m.from_).getD ("")) m.kind
        ctx.now).rateLimits).1.1 = true := hrl
  rw [if_neg (by rw [hrl1]; simp)]
  rfl

/-- Resolving a list selection appends exactly one order and leaves
leads untouched, whatever the sends then do. -/
theorem handleOrder_hit (ctx : Ctx) (dst w : String)
    (itemId : Option String) (s : St) (e : String × String × Nat)
    (hit : itemLookup s.1 itemId = some e) :
    (stOf (handleOrder ctx dst w itemId s)).1.orders =
      s.1.orders ++
        [{ order_number := none, wa_id := w, customer_phone := dst,
           item_id := itemId.getD (""),
           item_name := e.2.1 ++ (" — Rs ") ++ toString (e.2.2 / 100),
           item_price := some e.2.2, status := ("placed"),
           created_at := ctx.now }] ∧
    (stOf (handleOrder ctx dst w itemId s)).1.leads = s.1.leads := by
  unfold handleOrder
  rw [hit]
  constructor
  · refine (pr_stOf_bind (fun st => st.orders) _ _
      ((createOrder s.1 w dst (itemId.getD ("")) _ _ ctx.now, s.2) : St)
      (pr_sendText (fun st => st.orders) (fun _ _ _ _ _ => rfl) ctx dst _ _)
      (fun s1 => pr_showHome (fun st => st.orders)
        (fun _ _ _ _ _ => rfl) ctx dst s1)).trans ?_
    rfl
  · refine (pr_stOf_bind (fun st => st.leads) _ _
      ((createOrder s.1 w dst (itemId.getD ("")) _ _ ctx.now, s.2) : St)
      (pr_sendText (fun st => st.leads) (fun _ _ _ _ _ => rfl) ctx dst _ _)
      (fun s1 => pr_showHome (fun st => st.leads)
        (fun _ _ _ _ _ => rfl) ctx dst s1)).trans ?_
    rfl

/-- Capturing a first-contact lead appends exactly one lead row and
leaves orders untouched, whatever the sends then do. -/
theorem showLeadCapture_fresh (ctx : Ctx) (dst w : String) (s : St)
    (hnolead : s.1.leads.find? (fun l => l.wa_id == w) = none) :
    (stOf (showLeadCapture ctx dst w s)).1.leads =
      s.1.leads ++
        [{ wa_id := w, phone := dst, name := none,
           source := ("whatsapp_demo"), captured_at := ctx.now,
           status := ("new"), last_interaction := none }] ∧
    (stOf (showLeadCapture ctx dst w s)).1.orders = s.1.orders := by
  unfold showLeadCapture
  have hcap : captureLead s.1 w dst none ("whatsapp_demo") ctx.now =
      { s.1 with leads := s.1.leads ++
        [{ wa_id := w, phone := dst, name := none,
           source := ("whatsapp_demo"), captured_at := ctx.now,
           status := ("new"), last_interaction := none }] } := by
    unfold captureLead
    rw [hnolead]
  constructor
  · refine (pr_stOf_bind (fun st => st.leads) _ _
      ((captureLead s.1 w dst none ("whatsapp_demo") ctx.now, s.2) : St)
      (pr_sendText (fun st => st.leads) (fun _ _ _ _ _ => rfl) ctx dst _ _)
      (fun s1 => pr_showHome (fun st => st.leads)
        (fun _ _ _ _ _ => rfl) ctx dst s1)).trans ?_
    rw [show ((captureLead s.1 w dst none ("whatsapp_demo") ctx.now,
      s.2) : St).1 = captureLead s.1 w dst none ("whatsapp_demo") ctx.now
      from rfl, hcap]
  · refine (pr_stOf_bind (fun st => st.orders) _ _
      ((captureLead s.1 w dst none ("whatsapp_demo") ctx.now, s.2) : St)
      (pr_sendText (fun st => st.orders) (fun _ _ _ _ _ => rfl) ctx dst _ _)
      (fun s1 => pr_showHome (fun st => st.orders)
        (fun _ _ _ _ _ => rfl) ctx dst s1)).trans ?_
    rw [show ((captureLead s.1 w dst none ("whatsapp_demo") ctx.now,
      s.2) : St).1 = captureLead s.1 w dst none ("whatsapp_demo") ctx.now
      from rfl, hcap]

/-- C1: for every message id, running the pipeline twice sequentially
with an identical payload produces exactly one durable side effect: the
first run marks the id processed (and, for a resolvable list selection,
writes exactly one Order; for a lead-capture trigger on a first-contact
sender, exactly one Lead), and the second run's dedup check answers
`true`, so it responds `duplicate` with HTTP 200, performs no routing
and no sends, and writes nothing further to the processed / orders /
leads / users / rate-limit tables. -/
theorem pipeline_runs_twice_one_side_effect (ctx : Ctx) (body sig : String)
    (st0 : Store) (data : JsonVal) (m : Msg) (e : String × String × Nat)
    (hsig : ctx.appSecret = "" ∨
      verifySignature ctx.hmac ctx.appSecret body sig = .ok true)
    (hparse : ctx.parse body = some data)
    (hext : extractMessage data = some m)
    (hid : ((m.id).getD ("")).isEmpty = false)
    (hfrom : ((m.from_).getD ("")).isEmpty = false)
    (hfresh : alreadyProcessed st0 ((m.id).getD ("")) = false)
    (hnb : isUserBlocked st0 ((m.from_).getD ("")) = false)
    (hrl : (checkRateLimit ctx.maxReq ((m.from_).getD ("")) ctx.now
      st0.rateLimits).1.1 = true) :
    ((handlePost ctx body sig st0).store.processed =
      st0.processed ++
        [{ message_id := (m.id).getD (""), wa_id := (m.from_).getD (""),
           message_type := m.kind, processed_at := ctx.now }]) ∧
    ((handlePost ctx body sig (handlePost ctx body sig st0).store).status =
        ("duplicate") ∧
     (handlePost ctx body sig (handlePost ctx body sig st0).store).http =
        200 ∧
     (handlePost ctx body sig (handlePost ctx body sig st0).store).sends =
        [] ∧
     Event.markProc ∉
       (handlePost ctx body sig (handlePost ctx body sig st0).store).trace ∧
     Event.dispatched ∉
       (handlePost ctx body sig (handlePost ctx body sig st0).store).trace ∧
     (handlePost ctx body sig
        (handlePost ctx body sig st0).store).store.processed =
       (handlePost ctx body sig st0).store.processed ∧
     (handlePost ctx body sig
        (handlePost ctx body sig st0).store).store.orders =
       (handlePost ctx body sig st0).store.orders ∧
     (handlePost ctx body sig
        (handlePost ctx body sig st0).store).store.leads =
       (handlePost ctx body sig st0).store.leads ∧
     (handlePost ctx body sig
        (handlePost ctx body sig st0).store).store.users =
       (handlePost ctx body sig st0).store.users ∧
     (handlePost ctx body sig
        (handlePost ctx body sig st0).store).store.rateLimits =
       (handlePost ctx body sig st0).store.rateLimits) ∧
    (m.kind = ("list") → itemLookup st0 m.reply_id = some e →
      (handlePost ctx body sig st0).store.orders.length =
        st0.orders.length + 1 ∧
      (handlePost ctx body sig st0).store.leads = st0.leads) ∧
    (leadTrigger m = true →
      st0.leads.find? (fun l => l.wa_id == ((m.from_).getD (""))) = none →
      (handlePost ctx body sig st0).store.leads.length =
        st0.leads.length + 1 ∧
      (handlePost ctx body sig st0).store.orders = st0.orders) := by
  have ho1 : handlePost ctx body sig st0 =
      finish ("ok")
        [.checkDedup, .markProc, .checkBlocked, .checkRate, .upsertUser,
         .dispatched]
        (dispatchMsg ctx m ((m.from_).getD ("")) ((m.from_).getD (""))
          (getOrCreateUser
            { markProcessed
                (logMessage st0 ((m.from_).getD ("")) ("inbound")
                  (if m.kind.isEmpty then ("unknown") else m.kind) ctx.now)
                ((m.id).getD ("")) ((m.from_).getD ("")) m.kind ctx.now with
              rateLimits := (checkRateLimit ctx.maxReq ((m.from_).getD (""))
                ctx.now st0.rateLimits).2 }
            ((m.from_).getD ("")) ((m.from_).getD ("")) ctx.now, [])) :=
    (handlePost_extract ctx body sig st0 data m hsig hparse hext hid
      hfrom).trans (processMsg_happy ctx m st0 hfresh hnb hrl)
  have htab := getOrCreateUser_tables
    { markProcessed
        (logMessage st0 ((m.from_).getD ("")) ("inbound")
          (if m.kind.isEmpty then ("unknown") else m.kind) ctx.now)
        ((m.id).getD ("")) ((m.from_).getD ("")) m.kind ctx.now with
      rateLimits := (checkRateLimit ctx.maxReq ((m.from_).getD (""))
        ctx.now st0.rateLimits).2 }
    ((m.from_).getD ("")) ((m.from_).getD ("")) ctx.now
  have hst4proc : (getOrCreateUser
      { markProcessed
          (logMessage st0 ((m.from_).getD ("")) ("inbound")
            (if m.kind.isEmpty then ("unknown") else m.kind) ctx.now)
          ((m.id).getD ("")) ((m.from_).getD ("")) m.kind ctx.now with
        rateLimits := (checkRateLimit ctx.maxReq ((m.from_).getD (""))
          ctx.now st0.rateLimits).2 }
      ((m.from_).getD ("")) ((m.from_).getD ("")) ctx.now).processed =
      st0.processed ++
        [{ message_id := (m.id).getD (""), wa_id := (m.from_).getD (""),
           message_type := m.kind, processed_at := ctx.now }] :=
    htab.1.trans rfl
  have hst4orders : (getOrCreateUser
      { markProcessed
          (logMessage st0 ((m.from_).getD ("")) ("inbound")
            (if m.kind.isEmpty then ("unknown") else m.kind) ctx.now)
          ((m.id).getD ("")) ((m.from_).getD ("")) m.kind ctx.now with
        rateLimits := (checkRateLimit ctx.maxReq ((m.from_).getD (""))
          ctx.now st0.rateLimits).2 }
      ((m.from_).getD ("")) ((m.from_).getD ("")) ctx.now).orders =
      st0.orders := htab.2.1.trans rfl
  have hst4leads : (getOrCreateUser
      { markProcessed
          (logMessage st0 ((m.from_).getD ("")) ("inbound")
            (if m.kind.isEmpty then ("unknown") else m.kind) ctx.now)
          ((m.id).getD ("")) ((m.from_).getD ("")) m.kind ctx.now with
        rateLimits := (checkRateLimit ctx.maxReq ((m.from_).getD (""))
          ctx.now st0.rateLimits).2 }
      ((m.from_).getD ("")) ((m.from_).getD ("")) ctx.now).leads =
      st0.leads := htab.2.2.1.trans rfl
  have hst4menu : (getOrCreateUser
      { markProcessed
          (logMessage st0 ((m.from_).getD ("")) ("inbound")
            (if m.kind.isEmpty then ("unknown") else m.kind) ctx.now)
          ((m.id).getD ("")) ((m.from_).getD ("")) m.kind ctx.now with
        rateLimits := (checkRateLimit ctx.maxReq ((m.from_).getD (""))
          ctx.now st0.rateLimits).2 }
      ((m.from_).getD ("")) ((m.from_).getD ("")) ctx.now).menuItems =
      st0.menuItems := htab.2.2.2.1.trans rfl
  have hproc1 : (handlePost ctx body sig st0).store.processed =
      st0.processed ++
        [{ message_id := (m.id).getD (""), wa_id := (m.from_).getD (""),
           message_type := m.kind, processed_at := ctx.now }] := by
    rw [ho1, finish_store]
    refine (pr_dispatchMsg (fun st => st.processed)
      (fun _ _ _ _ _ => rfl)
      (fun st w p nm src n => by unfold captureLead; split <;> rfl)
      (fun _ _ _ _ _ _ _ => rfl)
      ctx m ((m.from_).getD ("")) ((m.from_).getD ("")) _).trans ?_
    exact hst4proc
  have ho2 : handlePost ctx body sig (handlePost ctx body sig st0).store =
      { status := ("duplicate"), http := 200,
        store := logMessage (handlePost ctx body sig st0).store
          ((m.from_).getD ("")) ("inbound")
          (if m.kind.isEmpty then ("unknown") else m.kind) ctx.now,
        sends := [], trace := [.checkDedup] } := by
    have hdup : alreadyProcessed
        (logMessage (handlePost ctx body sig st0).store
          ((m.from_).getD ("")) ("inbound")
          (if m.kind.isEmpty then ("unknown") else m.kind) ctx.now)
        ((m.id).getD ("")) = true :=
      alreadyProcessed_of_append _ ((m.id).getD (""))
        { message_id := (m.id).getD (""), wa_id := (m.from_).getD (""),
          message_type := m.kind, processed_at := ctx.now }
        st0.processed hproc1 rfl
    rw [handlePost_extract ctx body sig (handlePost ctx body sig st0).store
      data m hsig hparse hext hid hfrom]
    simp only [processMsg]
    rw [if_pos hdup]
  refine ⟨hproc1, ?_, ?_, ?_⟩
  · rw [ho2]
    refine ⟨rfl, rfl, rfl, by simp, by simp, rfl, rfl, rfl, rfl, rfl⟩
  · intro hkind hit
    rw [ho1, finish_store]
    have hdisp : dispatchMsg ctx m ((m.from_).getD (""))
        ((m.from_).getD (""))
        (getOrCreateUser
          { markProcessed
              (logMessage st0 ((m.from_).getD ("")) ("inbound")
                (if m.kind.isEmpty then ("unknown") else m.kind) ctx.now)
              ((m.id).getD ("")) ((m.from_).getD ("")) m.kind ctx.now with
            rateLimits := (checkRateLimit ctx.maxReq ((m.from_).getD (""))
              ctx.now st0.rateLimits).2 }
          ((m.from_).getD ("")) ((m.from_).getD ("")) ctx.now, []) =
        handleOrder ctx ((m.from_).getD ("")) ((m.from_).getD (""))
          m.reply_id
          (getOrCreateUser
            { markProcessed
                (logMessage st0 ((m.from_).getD ("")) ("inbound")
                  (if m.kind.isEmpty then ("unknown") else m.kind) ctx.now)
                ((m.id).getD ("")) ((m.from_).getD ("")) m.kind ctx.now with
              rateLimits := (checkRateLimit ctx.maxReq ((m.from_).getD (""))
                ctx.now st0.rateLimits).2 }
            ((m.from_).getD ("")) ((m.from_).getD ("")) ctx.now, []) := by
      unfold dispatchMsg
      rw [hkind]
      rfl
    rw [hdisp]
    have hit4 : itemLookup (getOrCreateUser
        { markProcessed
            (logMessage st0 ((m.from_).getD ("")) ("inbound")
              (if m.kind.isEmpty then ("unknown") else m.kind) ctx.now)
            ((m.id).getD ("")) ((m.from_).getD ("")) m.kind ctx.now with
          rateLimits := (checkRateLimit ctx.maxReq ((m.from_).getD (""))
            ctx.now st0.rateLimits).2 }
        ((m.from_).getD ("")) ((m.from_).getD ("")) ctx.now) m.reply_id =
        some e := by
      rw [itemLookup_congr _ st0 m.reply_id hst4menu]
      exact hit
    rcases handleOrder_hit ctx ((m.from_).getD ("")) ((m.from_).getD (""))
      m.reply_id
      (getOrCreateUser
          { markProcessed
              (logMessage st0 ((m.from_).getD ("")) ("inbound")
                (if m.kind.isEmpty then ("unknown") else m.kind) ctx.now)
              ((m.id).getD ("")) ((m.from_).getD ("")) m.kind ctx.now with
            rateLimits := (checkRateLimit ctx.maxReq ((m.from_).getD (""))
              ctx.now st0.rateLimits).2 }
          ((m.from_).getD ("")) ((m.from_).getD ("")) ctx.now,
        ([] : List SendPayload)) e hit4 with ⟨ho, hl⟩
    constructor
    · rw [ho]
      rw [show ((getOrCreateUser
          { markProcessed
              (logMessage st0 ((m.from_).getD ("")) ("inbound")
                (if m.kind.isEmpty then ("unknown") else m.kind) ctx.now)
              ((m.id).getD ("")) ((m.from_).getD ("")) m.kind ctx.now with
            rateLimits := (checkRateLimit ctx.maxReq ((m.from_).getD (""))
              ctx.now st0.rateLimits).2 }
          ((m.from_).getD ("")) ((m.from_).getD ("")) ctx.now,
          ([] : List SendPayload)) : St).1.orders = st0.orders
        from hst4orders]
      simp
    · rw [hl]
      exact hst4leads
  · intro hlt hnolead
    rw [ho1, finish_store]
    have hnolead4 : (getOrCreateUser
        { markProcessed
            (logMessage st0 ((m.from_).getD ("")) ("inbound")
              (if m.kind.isEmpty then ("unknown") else m.kind) ctx.now)
            ((m.id).getD ("")) ((m.from_).getD ("")) m.kind ctx.now with
          rateLimits := (checkRateLimit ctx.maxReq ((m.from_).getD (""))
            ctx.now st0.rateLimits).2 }
        ((m.from_).getD ("")) ((m.from_).getD ("")) ctx.now).leads.find?
        (fun l => l.wa_id == ((m.from_).getD (""))) = none := by
      rw [hst4leads]
      exact hnolead
    have hcases : (m.kind = ("text") ∧
        routeText ((m.text).getD ("")) = .leadCapture) ∨
        (m.kind = ("button") ∧
         buttonFlow ((m.reply_id).getD ("")) = .leadCapture) := by
      unfold leadTrigger at hlt
      simp only [Bool.or_eq_true, Bool.and_eq_true, beq_iff_eq] at hlt
      exact hlt
    have hfinish : ∀ hdisp : dispatchMsg ctx m ((m.from_).getD (""))
        ((m.from_).getD (""))
        (getOrCreateUser
          { markProcessed
              (logMessage st0 ((m.from_).getD ("")) ("inbound")
                (if m.kind.isEmpty then ("unknown") else m.kind) ctx.now)
              ((m.id).getD ("")) ((m.from_).getD ("")) m.kind ctx.now with
            rateLimits := (checkRateLimit ctx.maxReq ((m.from_).getD (""))
              ctx.now st0.rateLimits).2 }
          ((m.from_).getD ("")) ((m.from_).getD ("")) ctx.now, []) =
        showLeadCapture ctx ((m.from_).getD ("")) ((m.from_).getD (""))
          (getOrCreateUser
            { markProcessed
                (logMessage st0 ((m.from_).getD ("")) ("inbound")
                  (if m.kind.isEmpty then ("unknown") else m.kind) ctx.now)
                ((m.id).getD ("")) ((m.from_).getD ("")) m.kind ctx.now with
              rateLimits := (checkRateLimit ctx.maxReq ((m.from_).getD (""))
                ctx.now st0.rateLimits).2 }
            ((m.from_).getD ("")) ((m.from_).getD ("")) ctx.now, []),
        (stOf (dispatchMsg ctx m ((m.from_).getD ("")) ((m.from_).getD (""))
          (getOrCreateUser
            { markProcessed
                (logMessage st0 ((m.from_).getD ("")) ("inbound")
                  (if m.kind.isEmpty then ("unknown") else m.kind) ctx.now)
                ((m.id).getD ("")) ((m.from_).getD ("")) m.kind ctx.now with
              rateLimits := (checkRateLimit ctx.maxReq ((m.from_).getD (""))
                ctx.now st0.rateLimits).2 }
            ((m.from_).getD ("")) ((m.from_).getD ("")) ctx.now,
            []))).1.leads.length = st0.leads.length + 1 ∧
        (stOf (dispatchMsg ctx m ((m.from_).getD ("")) ((m.from_).getD (""))
          (getOrCreateUser
            { markProcessed
                (logMessage st0 ((m.from_).getD ("")) ("inbound")
                  (if m.kind.isEmpty then ("unknown") else m.kind) ctx.now)
                ((m.id).getD ("")) ((m.from_).getD ("")) m.kind ctx.now with
              rateLimits := (checkRateLimit ctx.maxReq ((m.from_).getD (""))
                ctx.now st0.rateLimits).2 }
            ((m.from_).getD ("")) ((m.from_).getD ("")) ctx.now,
            []))).1.orders = st0.orders := by
      intro hdisp
      rw [hdisp]
      rcases showLeadCapture_fresh ctx ((m.from_).getD (""))
        ((m.from_).getD (""))
        (getOrCreateUser
          { markProcessed
              (logMessage st0 ((m.from_).getD ("")) ("inbound")
                (if m.kind.isEmpty then ("unknown") else m.kind) ctx.now)
              ((m.id).getD ("")) ((m.from_).getD ("")) m.kind ctx.now with
            rateLimits := (checkRateLimit ctx.maxReq ((m.from_).getD (""))
              ctx.now st0.rateLimits).2 }
          ((m.from_).getD ("")) ((m.from_).getD ("")) ctx.now,
        ([] : List SendPayload)) hnolead4 with ⟨hl, ho⟩
      constructor
      · rw [hl]
        rw [show ((getOrCreateUser
            { markProcessed
                (logMessage st0 ((m.from_).getD ("")) ("inbound")
                  (if m.kind.isEmpty then ("unknown") else m.kind) ctx.now)
                ((m.id).getD ("")) ((m.from_).getD ("")) m.kind ctx.now with
              rateLimits := (checkRateLimit ctx.maxReq ((m.from_).getD (""))
                ctx.now st0.rateLimits).2 }
            ((m.from_).getD ("")) ((m.from_).getD ("")) ctx.now,
            ([] : List SendPayload)) : St).1.leads = st0.leads
          from hst4leads]
        simp
      · rw [ho]
        exact hst4orders
    rcases hcases with ⟨hkind, hroute⟩ | ⟨hkind, hbtn⟩
    · exact hfinish (by unfold dispatchMsg; rw [hkind, hroute]; rfl)
    · exact hfinish (by unfold dispatchMsg; rw [hkind, hbtn]; rfl)

/-- C1 witness: a concrete `ITEM_PIZZA` list selection delivered twice
— the first run writes exactly one order, the second reports
`duplicate` and leaves the order table unchanged. -/
theorem pipeline_runs_twice_one_side_effect_witness :
    (handlePost { ctxBase with parse := fun _ => some listPayloadPizza }
      ("b") ("s")
      (handlePost { ctxBase with parse := fun _ => some listPayloadPizza }
        ("b") ("s") emptyStore).store).status = ("duplicate") ∧
    (handlePost { ctxBase with parse := fun _ => some listPayloadPizza }
      ("b") ("s") emptyStore).store.orders.length =
      emptyStore.orders.length + 1 :=
  ⟨(pipeline_runs_twice_one_side_effect
      { ctxBase with parse := fun _ => some listPayloadPizza } ("b") ("s")
      emptyStore listPayloadPizza
      { from_ := some ("923001234567"), id := some ("wamid.list1"),
        type := some ("interactive"), kind := ("list"), text := none,
        reply_id := some ("ITEM_PIZZA"), title := some ("Pizza Slice") }
      (("ITEM_PIZZA"), ("Pizza Slice"), 35000)
      (.inl rfl) rfl (by decide) (by decide) (by decide) (by decide)
      (by decide) (by decide)).2.1.1,
   ((pipeline_runs_twice_one_side_effect
      { ctxBase with parse := fun _ => some listPayloadPizza } ("b") ("s")
      emptyStore listPayloadPizza
      { from_ := some ("923001234567"), id := some ("wamid.list1"),
        type := some ("interactive"), kind := ("list"), text := none,
        reply_id := some ("ITEM_PIZZA"), title := some ("Pizza Slice") }
      (("ITEM_PIZZA"), ("Pizza Slice"), 35000)
      (.inl rfl) rfl (by decide) (by decide) (by decide) (by decide)
      (by decide) (by decide)).2.2.1 rfl (by decide)).1⟩
